import Mathlib

/-!
The nRF905 radio link driver, `remote_car/Src/nRF905Handler.c`.

A shallow embedding of the driver: the file-scope statics become fields of one
`World` record that every function takes and returns, the HAL and RTOS
primitives the driver calls (GPIO writes, the duplex DMA transfer, semaphore and
mutex waits, delays, the tick counter) append to a call log, and whatever those
primitives answer is read from an `Env` of answer streams, one stream per
primitive, each with its own cursor in the `World`.

Conventions:
* `uint8_t`, `uint16_t`, `uint32_t` values are `Nat` with an explicit `% 2^w`
  wherever the C code can wrap or truncate; `int16_t` fields and `int32_t`
  return codes are `Int`.
* The `int32_t` length parameters are embedded over their non-negative range
  (`Nat`); a negative length reaches `memcpy` as a huge `size_t`, which has no
  defined behaviour to embed.
* Byte buffers are `List Nat`; a caller's buffer is passed in and the updated
  buffer is passed back.
-/

namespace NRF905

/-! ## Constants -/

def NRF905_POWER : Nat := 3
def NRF905_TX_ADDR_LEN : Nat := 4
def NRF905_RX_ADDR_LEN : Nat := 4
def NRF905_RX_PAYLOAD_LEN : Nat := 32
def NRF905_TX_PAYLOAD_LEN : Nat := NRF905_RX_PAYLOAD_LEN
def NRF905_SPI_TX_RX_MAX_LEN : Nat := NRF905_RX_PAYLOAD_LEN + 1
def MAX_HOPPING_RETRY_TIMES : Nat := 3

def NRF905_RX_ADDRESS_IN_CR : Nat := 5
def NRF905_CMD_WC_MASK : Nat := 0x0F
def NRF905_CMD_WC (unWR_CFG_ByteIndex : Nat) : Nat := unWR_CFG_ByteIndex &&& NRF905_CMD_WC_MASK
def NRF905_CMD_RC_MASK : Nat := 0x0F
def NRF905_CMD_RC (unRD_CFG_ByteIndex : Nat) : Nat :=
  (unRD_CFG_ByteIndex &&& NRF905_CMD_RC_MASK) ||| 0x10
def NRF905_CMD_WTP : Nat := 0x20
def NRF905_CMD_WTA : Nat := 0x22
def NRF905_CMD_RRP : Nat := 0x24
def NRF905_CMD_CC (unPwrChn : Nat) : Nat := unPwrChn ||| 0x8000

/-! ## Data model -/

/-- The enum `nRF905CMD_t`, by value. -/
def NRF905_CMD_GET_STATUS : Nat := 0

/-- The struct `CarStatus_t`: three `int16_t` fields. -/
structure CarStatus_t where
  nFrontSpeed : Int
  nRearSpeed : Int
  nSteer : Int
  deriving DecidableEq, Repr

/-- The enum `nRF905Mode_t`, with its end marker `NRF905_MODE_MAX`. -/
inductive nRF905Mode_t where
  | NRF905_MODE_PWR_DOWN
  | NRF905_MODE_STD_BY
  | NRF905_MODE_BURST_RX
  | NRF905_MODE_BURST_TX
  | NRF905_MODE_MAX
  deriving DecidableEq, Repr

open nRF905Mode_t

/-- The integer value of an enumerator of `nRF905Mode_t`. -/
def nRF905Mode_t.toNat : nRF905Mode_t → Nat
  | NRF905_MODE_PWR_DOWN => 0
  | NRF905_MODE_STD_BY => 1
  | NRF905_MODE_BURST_RX => 2
  | NRF905_MODE_BURST_TX => 3
  | NRF905_MODE_MAX => 4

/-- The HAL enum `GPIO_PinState`. -/
inductive GPIO_PinState where
  | GPIO_PIN_RESET
  | GPIO_PIN_SET
  deriving DecidableEq, Repr

open GPIO_PinState

/-- The struct `nRF905PinLevelInMode_t`. -/
structure nRF905PinLevelInMode_t where
  nPWR_UP_PIN : GPIO_PinState
  nTRX_CE_PIN : GPIO_PinState
  nTX_EN_PIN : GPIO_PinState
  deriving DecidableEq, Repr

/-- Pin status according to each nRF905 mode. -/
def unNRF905MODE_PIN_LEVEL : List nRF905PinLevelInMode_t :=
  [ ⟨GPIO_PIN_RESET, GPIO_PIN_RESET, GPIO_PIN_RESET⟩,
    ⟨GPIO_PIN_SET, GPIO_PIN_RESET, GPIO_PIN_RESET⟩,
    ⟨GPIO_PIN_SET, GPIO_PIN_SET, GPIO_PIN_RESET⟩,
    ⟨GPIO_PIN_SET, GPIO_PIN_SET, GPIO_PIN_SET⟩ ]

/-- The struct `nRF905Status_t`; the counters and addresses are `uint32_t`, the
channel/power word is `uint16_t`. -/
structure nRF905Status_t where
  unNRF905RecvFrameCNT : Nat
  unNRF905SendFrameCNT : Nat
  unNRF905HoppingCNT : Nat
  unNRF905TxAddr : Nat
  unNRF905RxAddr : Nat
  unNRF905CHN_PWR : Nat
  tNRF905CurrentMode : nRF905Mode_t
  deriving DecidableEq, Repr

def unCAR_REMOTE_HOPPING_TAB : List Nat :=
  [ 0x804C, 0x803A, 0x8046, 0x8032, 0x804A, 0x8035,
    0x804B, 0x8037, 0x804F, 0x803E, 0x8047, 0x8038, 0x8044, 0x8034, 0x8043, 0x8034, 0x804B,
    0x8039, 0x804D, 0x803A, 0x804E, 0x803C, 0x8032, 0x803F ]

/-! ## The HAL / RTOS boundary -/

/-- The GPIO lines the driver writes. -/
inductive Pin where
  | NRF905_TX_EN
  | NRF905_TRX_CE
  | NRF905_PWR_UP
  | NRF905_CSN
  deriving DecidableEq, Repr

/-- The two binary semaphores the driver waits on. -/
inductive Sem where
  | nRF905SPIDMACpltHandle
  | DataReadySetHandle
  deriving DecidableEq, Repr

/-- One call across the HAL / RTOS boundary, with its arguments. -/
inductive HwCall where
  | HAL_GPIO_WritePin (pin : Pin) (level : GPIO_PinState)
  | HAL_SPI_TransmitReceive_DMA (txBytes : List Nat)
  | osSemaphoreWait (sem : Sem) (millisec : Nat)
  | osDelay (millisec : Nat)
  | osMutexWait (millisec : Nat)
  | osMutexRelease
  | HAL_GetTick
  deriving DecidableEq, Repr

/-- What the HAL and the RTOS answer. Each stream is indexed by the number of
earlier calls of the same kind (the cursors of `World`).
`spiWaitOK n` answers the completion wait inside the `n`-th SPI transaction,
`hopWaitOK n` answers the `n`-th completion wait of the hop loop; both waits are
on `nRF905SPIDMACpltHandle`. -/
structure Env where
  mutexOK : Nat → Bool
  spiStartOK : Nat → Bool
  spiWaitOK : Nat → Bool
  spiRxByte : Nat → Nat → Nat
  dataReadyOK : Nat → Bool
  hopWaitOK : Nat → Bool
  tick : Nat → Nat

/-- The program state: the file-scope statics, the function-scope static
scratch buffers of `nRF905SPIWrite` and `nRF905SPIRead`, whether the calling
task owns the mutex `nRF905OccupyHandle`, the log of calls made so far, and the
cursors into the answer streams. -/
structure World where
  tNRF905Status : nRF905Status_t
  tRemoteCarStatus : CarStatus_t
  unSysTickTest : Nat
  wrTxBuff : List Nat
  wrRxBuff : List Nat
  rdTxBuff : List Nat
  rdRxBuff : List Nat
  held : Bool
  calls : List HwCall
  nMutex : Nat
  nSpi : Nat
  nDataReady : Nat
  nHopWait : Nat
  nTick : Nat
  deriving DecidableEq, Repr

/-- The state after static initialisation: `tNRF905Status = {0, 0, 0, 0, 0,
NRF905_MODE_PWR_DOWN}` (the sixth initialiser lands in the channel/power word,
the mode is zero-initialised, both are 0), zeroed statics, nothing called. -/
def world0 : World :=
  { tNRF905Status := ⟨0, 0, 0, 0, 0, NRF905_MODE_PWR_DOWN.toNat, NRF905_MODE_PWR_DOWN⟩
    tRemoteCarStatus := ⟨0, 0, 0⟩
    unSysTickTest := 0
    wrTxBuff := List.replicate NRF905_SPI_TX_RX_MAX_LEN 0
    wrRxBuff := List.replicate NRF905_SPI_TX_RX_MAX_LEN 0
    rdTxBuff := List.replicate NRF905_SPI_TX_RX_MAX_LEN 0
    rdRxBuff := List.replicate NRF905_SPI_TX_RX_MAX_LEN 0
    held := false
    calls := []
    nMutex := 0
    nSpi := 0
    nDataReady := 0
    nHopWait := 0
    nTick := 0 }

/-- Record one call in the log. -/
def emit (c : HwCall) (w : World) : World :=
  { w with calls := w.calls ++ [c] }

/-- Store a new current mode in `tNRF905Status`. -/
def World.setMode (w : World) (m : nRF905Mode_t) : World :=
  { w with tNRF905Status := { w.tNRF905Status with tNRF905CurrentMode := m } }

/-- The assignment `tNRF905Status.unNRF905CHN_PWR = x`. -/
def World.setCHN_PWR (w : World) (x : Nat) : World :=
  { w with tNRF905Status := { w.tNRF905Status with unNRF905CHN_PWR := x } }

/-- The assignment `tNRF905Status.unNRF905TxAddr = x`. -/
def World.setTxAddr (w : World) (x : Nat) : World :=
  { w with tNRF905Status := { w.tNRF905Status with unNRF905TxAddr := x } }

/-- The assignment `tNRF905Status.unNRF905RxAddr = x`. -/
def World.setRxAddr (w : World) (x : Nat) : World :=
  { w with tNRF905Status := { w.tNRF905Status with unNRF905RxAddr := x } }

/-- The statement `tNRF905Status.unNRF905HoppingCNT++` on a `uint32_t`. -/
def World.incHoppingCNT (w : World) : World :=
  { w with tNRF905Status := { w.tNRF905Status with
    unNRF905HoppingCNT := (w.tNRF905Status.unNRF905HoppingCNT + 1) % 2 ^ 32 } }

/-- The statement `tNRF905Status.unNRF905SendFrameCNT++` on a `uint32_t`. -/
def World.incSendFrameCNT (w : World) : World :=
  { w with tNRF905Status := { w.tNRF905Status with
    unNRF905SendFrameCNT := (w.tNRF905Status.unNRF905SendFrameCNT + 1) % 2 ^ 32 } }

/-- The statement `tNRF905Status.unNRF905RecvFrameCNT++` on a `uint32_t`. -/
def World.incRecvFrameCNT (w : World) : World :=
  { w with tNRF905Status := { w.tNRF905Status with
    unNRF905RecvFrameCNT := (w.tNRF905Status.unNRF905RecvFrameCNT + 1) % 2 ^ 32 } }

/-- The C library `memcpy(dest, src, n)` on byte lists: the first `n` bytes of
`dest` become the first `n` bytes of `src`. -/
def memcpy (dest src : List Nat) (n : Nat) : List Nat :=
  (List.range n).map (fun i => src.getD i 0) ++ dest.drop n

/-- The bytes of a `uint32_t` in memory, least significant first (Cortex-M3). -/
def bytesOfU32 (x : Nat) : List Nat :=
  [x % 256, x / 256 % 256, x / 65536 % 256, x / 16777216 % 256]

/-! ## Mode controller -/

def setNRF905Mode (tNRF905Mode : nRF905Mode_t) (w : World) : Int × World :=
  if tNRF905Mode.toNat ≥ NRF905_MODE_MAX.toNat then
    (-1, w)
  else if tNRF905Mode = w.tNRF905Status.tNRF905CurrentMode then
    (0, w)
  else
    let lv := unNRF905MODE_PIN_LEVEL.getD tNRF905Mode.toNat ⟨GPIO_PIN_RESET, GPIO_PIN_RESET, GPIO_PIN_RESET⟩
    let w := emit (.HAL_GPIO_WritePin .NRF905_TX_EN lv.nTX_EN_PIN) w
    let w := emit (.HAL_GPIO_WritePin .NRF905_TRX_CE lv.nTRX_CE_PIN) w
    let w := emit (.HAL_GPIO_WritePin .NRF905_PWR_UP lv.nPWR_UP_PIN) w
    (0, w.setMode tNRF905Mode)

/-! ## Transport layer -/

/-- The transaction `nRF905SPIDataRW`; `pTxBuff` and `pRxBuff` are the buffers
the two pointers designate, and the updated `pRxBuff` is returned next to the
return code. When the DMA transfer is started the first `unBuffLen` bytes of
`pRxBuff` are those the environment clocks in. -/
def nRF905SPIDataRW (e : Env) (pTxBuff pRxBuff : List Nat) (unBuffLen : Nat) (w : World) :
    Int × List Nat × World :=
  if unBuffLen > NRF905_SPI_TX_RX_MAX_LEN then
    (-1, pRxBuff, w)
  else
    let tPreMode := w.tNRF905Status.tNRF905CurrentMode
    let w := (setNRF905Mode NRF905_MODE_STD_BY w).2
    let w := emit (.HAL_GPIO_WritePin .NRF905_CSN GPIO_PIN_RESET) w
    let n := w.nSpi
    let w := { emit (.HAL_SPI_TransmitReceive_DMA (pTxBuff.take unBuffLen)) w with nSpi := n + 1 }
    if e.spiStartOK n then
      let pRxBuff := memcpy pRxBuff ((List.range unBuffLen).map (fun i => e.spiRxByte n i % 256)) unBuffLen
      let nWaitResult := e.spiWaitOK n
      let w := emit (.osSemaphoreWait .nRF905SPIDMACpltHandle 50) w
      let w := emit (.HAL_GPIO_WritePin .NRF905_CSN GPIO_PIN_SET) w
      let w := (setNRF905Mode tPreMode w).2
      if nWaitResult then
        (0, pRxBuff, w)
      else
        (-1, pRxBuff, w)
    else
      (-1, pRxBuff, w)

/-! ## Command protocol -/

def nRF905SPIWrite (e : Env) (unCMD : Nat) (pData : List Nat) (nDataLen : Nat) (w : World) :
    Int × World :=
  if nDataLen > NRF905_SPI_TX_RX_MAX_LEN - 1 then
    (-1, w)
  else
    let unTxBuff := w.wrTxBuff.set 0 (unCMD % 256)
    let unTxBuff := unTxBuff.take 1 ++ memcpy (unTxBuff.drop 1) pData nDataLen
    let w := { w with wrTxBuff := unTxBuff }
    let r := nRF905SPIDataRW e unTxBuff w.wrRxBuff ((nDataLen + 1) % 256) w
    (r.1, { r.2.2 with wrRxBuff := r.2.1 })

/-- The read `nRF905SPIRead`; `pData` is the caller's buffer and comes back
updated. -/
def nRF905SPIRead (e : Env) (unCMD : Nat) (pData : List Nat) (nDataLen : Nat) (w : World) :
    Int × List Nat × World :=
  if nDataLen > NRF905_SPI_TX_RX_MAX_LEN - 1 then
    (-1, pData, w)
  else
    let unTxBuff := w.rdTxBuff.set 0 (unCMD % 256)
    let w := { w with rdTxBuff := unTxBuff }
    let r := nRF905SPIDataRW e unTxBuff w.rdRxBuff ((nDataLen + 1) % 256) w
    let nRslt := r.1
    let w := { r.2.2 with rdRxBuff := r.2.1 }
    if 0 = nRslt then
      (nRslt, memcpy pData (w.rdRxBuff.drop 1) nDataLen, w)
    else
      (nRslt, pData, w)

def readRxPayload (e : Env) (pBuff : List Nat) (nBuffLen : Nat) (w : World) :
    Int × List Nat × World :=
  nRF905SPIRead e NRF905_CMD_RRP pBuff nBuffLen w

def readConfig (e : Env) (unConfigAddr : Nat) (pBuff : List Nat) (nBuffLen : Nat) (w : World) :
    Int × List Nat × World :=
  nRF905SPIRead e (NRF905_CMD_RC unConfigAddr) pBuff nBuffLen w

def writeConfig (e : Env) (unConfigAddr : Nat) (pBuff : List Nat) (nBuffLen : Nat) (w : World) :
    Int × World :=
  nRF905SPIWrite e (NRF905_CMD_WC unConfigAddr) pBuff nBuffLen w

def writeTxAddr (e : Env) (unTxAddr : Nat) (w : World) : Int × World :=
  nRF905SPIWrite e NRF905_CMD_WTA (bytesOfU32 unTxAddr) 4 w

def writeRxAddr (e : Env) (unRxAddr : Nat) (w : World) : Int × World :=
  nRF905SPIWrite e NRF905_RX_ADDRESS_IN_CR (bytesOfU32 unRxAddr) 4 w

def writeTxPayload (e : Env) (pBuff : List Nat) (nBuffLen : Nat) (w : World) : Int × World :=
  nRF905SPIWrite e NRF905_CMD_WTP pBuff nBuffLen w

def writeFastConfig (e : Env) (unPA_PLL_CHN : Nat) (w : World) : Int × World :=
  let unSubCmd := (unPA_PLL_CHN &&& 0xFF) % 256
  nRF905SPIWrite e (NRF905_CMD_CC ((unPA_PLL_CHN >>> 8) % 256)) [unSubCmd] 1 w

/-! ## Frequency-hopping recovery -/

def GET_CHN_PWR_FAST_CONFIG (x y : Nat) : Nat := x ||| (y <<< 10)
def GET_TX_ADDR_FROM_CHN_PWR (x : Nat) : Nat := (x ||| (x <<< 16)) &&& 0x5CA259AA
def GET_RX_ADDR_FROM_CHN_PWR (x : Nat) : Nat := (x ||| (x <<< 16)) &&& 0xA33D59AA

/-- The body of the inner `for` of `roamNRF905` at table index `nHoppingIndex`
(lines 234-258): `some r` when the body executes `return r`, `none` when control
reaches the end of the body and the loop goes on. -/
def roamNRF905_body (e : Env) (tPreMode : nRF905Mode_t) (pTxBuff : List Nat) (nTxBuffLen : Nat)
    (nRxBuffLen : Nat) (nHoppingIndex : Nat) (pRxBuff : List Nat) (w : World) :
    Option Int × List Nat × World :=
  let w := (setNRF905Mode NRF905_MODE_STD_BY w).2
  let w := w.setCHN_PWR
    (GET_CHN_PWR_FAST_CONFIG (unCAR_REMOTE_HOPPING_TAB.getD nHoppingIndex 0) NRF905_POWER % 2 ^ 16)
  let w := w.incHoppingCNT
  let w := w.setTxAddr (GET_TX_ADDR_FROM_CHN_PWR w.tNRF905Status.unNRF905CHN_PWR % 2 ^ 32)
  let w := w.setRxAddr (GET_RX_ADDR_FROM_CHN_PWR w.tNRF905Status.unNRF905CHN_PWR % 2 ^ 32)
  let w := (writeFastConfig e w.tNRF905Status.unNRF905CHN_PWR w).2
  let w := (writeTxAddr e w.tNRF905Status.unNRF905TxAddr w).2
  let w := (writeRxAddr e w.tNRF905Status.unNRF905RxAddr w).2
  let w := (writeTxPayload e pTxBuff nTxBuffLen w).2
  let w := (setNRF905Mode NRF905_MODE_BURST_TX w).2
  let w := w.incSendFrameCNT
  let w := emit (.osDelay 2) w
  let w := (setNRF905Mode NRF905_MODE_BURST_RX w).2
  let nWaitResult := e.hopWaitOK w.nHopWait
  let w := { emit (.osSemaphoreWait .nRF905SPIDMACpltHandle 50) w with nHopWait := w.nHopWait + 1 }
  if nWaitResult then
    let r := readRxPayload e pRxBuff nRxBuffLen w
    let w := (setNRF905Mode tPreMode r.2.2).2
    let w := w.incRecvFrameCNT
    (some 0, r.2.1, w)
  else
    (none, pRxBuff, w)

/-- The inner `for` of `roamNRF905` over the table indices still to visit. -/
def roamNRF905_forIndex (e : Env) (tPreMode : nRF905Mode_t) (pTxBuff : List Nat) (nTxBuffLen : Nat)
    (nRxBuffLen : Nat) : List Nat → List Nat → World → Option Int × List Nat × World
  | [], pRxBuff, w => (none, pRxBuff, w)
  | nHoppingIndex :: rest, pRxBuff, w =>
    match roamNRF905_body e tPreMode pTxBuff nTxBuffLen nRxBuffLen nHoppingIndex pRxBuff w with
    | (some r, pRxBuff, w) => (some r, pRxBuff, w)
    | (none, pRxBuff, w) =>
      roamNRF905_forIndex e tPreMode pTxBuff nTxBuffLen nRxBuffLen rest pRxBuff w

/-- The outer `for` of `roamNRF905` over the passes still to make. -/
def roamNRF905_forTimes (e : Env) (tPreMode : nRF905Mode_t) (pTxBuff : List Nat) (nTxBuffLen : Nat)
    (nRxBuffLen : Nat) : List Nat → List Nat → World → Option Int × List Nat × World
  | [], pRxBuff, w => (none, pRxBuff, w)
  | _ :: rest, pRxBuff, w =>
    match roamNRF905_forIndex e tPreMode pTxBuff nTxBuffLen nRxBuffLen
        (List.range unCAR_REMOTE_HOPPING_TAB.length) pRxBuff w with
    | (some r, pRxBuff, w) => (some r, pRxBuff, w)
    | (none, pRxBuff, w) =>
      roamNRF905_forTimes e tPreMode pTxBuff nTxBuffLen nRxBuffLen rest pRxBuff w

def roamNRF905 (e : Env) (pTxBuff : List Nat) (nTxBuffLen : Nat) (pRxBuff : List Nat)
    (nRxBuffLen : Nat) (w : World) : Int × List Nat × World :=
  let tPreMode := w.tNRF905Status.tNRF905CurrentMode
  match roamNRF905_forTimes e tPreMode pTxBuff nTxBuffLen nRxBuffLen
      (List.range MAX_HOPPING_RETRY_TIMES) pRxBuff w with
  | (some r, pRxBuff, w) => (r, pRxBuff, w)
  | (none, pRxBuff, w) =>
    let w := (setNRF905Mode tPreMode w).2
    (-1, pRxBuff, w)

/-! ## Session manager -/

def nRF905SendFrame (e : Env) (pTxBuff : List Nat) (nTxBuffLen : Nat) (pRxBuff : List Nat)
    (nRxBuffLen : Nat) (w : World) : Int × List Nat × World :=
  let acquired := e.mutexOK w.nMutex
  let w := { emit (.osMutexWait 500) w with nMutex := w.nMutex + 1 }
  if acquired = false then
    (-1, pRxBuff, w)
  else
    let w := { w with held := true }
    let tPreMode := w.tNRF905Status.tNRF905CurrentMode
    let w := (writeTxPayload e pTxBuff nTxBuffLen w).2
    let w := (setNRF905Mode NRF905_MODE_BURST_TX w).2
    let w := w.incSendFrameCNT
    let w := emit (.osDelay 2) w
    let w := (setNRF905Mode NRF905_MODE_BURST_RX w).2
    let nWaitResult := e.dataReadyOK w.nDataReady
    let w := { emit (.osSemaphoreWait .DataReadySetHandle 80) w with nDataReady := w.nDataReady + 1 }
    if nWaitResult then
      let r := readRxPayload e pRxBuff nRxBuffLen w
      let w := (setNRF905Mode tPreMode r.2.2).2
      let w := w.incRecvFrameCNT
      let w := { emit .osMutexRelease w with held := false }
      (0, r.2.1, w)
    else
      let r := roamNRF905 e pTxBuff nTxBuffLen pRxBuff nRxBuffLen w
      let nResult := r.1
      let w := (setNRF905Mode tPreMode r.2.2).2
      let w := { emit .osMutexRelease w with held := false }
      (nResult, r.2.1, w)

/-! ## Poller -/

/-- The `int16_t` stored at byte offset `off` of `mem`: low byte first, two's
complement (the Cortex-M3 object representation). -/
def loadI16 (mem : List Nat) (off : Nat) : Int :=
  let u := (mem.getD off 0 + 256 * mem.getD (off + 1) 0) % 65536
  if u < 32768 then (u : Int) else (u : Int) - 65536

/-- The load `*((CarStatus_t*)p)`: three consecutive `int16_t` members. -/
def CarStatus_t.load (p : List Nat) : CarStatus_t :=
  ⟨loadI16 p 0, loadI16 p 2, loadI16 p 4⟩

/-- The timer callback `queryCarStatus`. `unReadFrame` is what the
uninitialised 6-byte stack array holds when the function is entered. -/
def queryCarStatus (e : Env) (unReadFrame : List Nat) (w : World) : World :=
  let unSysTick := e.tick w.nTick % 2 ^ 32
  let w := { emit .HAL_GetTick w with nTick := w.nTick + 1 }
  let unCmd := (NRF905_CMD_GET_STATUS % 256) :: bytesOfU32 unSysTick
  let r := nRF905SendFrame e unCmd 5 unReadFrame 6 w
  if r.1 = 0 then
    let w := r.2.2
    let now := e.tick w.nTick % 2 ^ 32
    let w := { emit .HAL_GetTick w with nTick := w.nTick + 1 }
    let w := { w with unSysTickTest := (now + 2 ^ 32 - unSysTick) % 2 ^ 32 }
    { w with tRemoteCarStatus := CarStatus_t.load r.2.1 }
  else
    r.2.2

def getCarStatus (w : World) : CarStatus_t :=
  w.tRemoteCarStatus

/-! ## Observations used to state the properties -/

/-- The part of the state that neither a mode change nor an SPI transaction
touches: counters, channel/power word and addresses, the published snapshot,
mutex ownership, the number of `osMutexRelease` calls logged, and the cursors
of every answer stream but the SPI one. -/
structure Link where
  recv : Nat
  send : Nat
  hop : Nat
  txAddr : Nat
  rxAddr : Nat
  chnPwr : Nat
  car : CarStatus_t
  tickTest : Nat
  held : Bool
  releases : Nat
  nMutex : Nat
  nDataReady : Nat
  nHopWait : Nat
  nTick : Nat
  deriving DecidableEq, Repr

/-- The number of `osMutexRelease` calls in the log. -/
def World.releases (w : World) : Nat :=
  w.calls.count HwCall.osMutexRelease

def World.link (w : World) : Link :=
  { recv := w.tNRF905Status.unNRF905RecvFrameCNT
    send := w.tNRF905Status.unNRF905SendFrameCNT
    hop := w.tNRF905Status.unNRF905HoppingCNT
    txAddr := w.tNRF905Status.unNRF905TxAddr
    rxAddr := w.tNRF905Status.unNRF905RxAddr
    chnPwr := w.tNRF905Status.unNRF905CHN_PWR
    car := w.tRemoteCarStatus
    tickTest := w.unSysTickTest
    held := w.held
    releases := w.releases
    nMutex := w.nMutex
    nDataReady := w.nDataReady
    nHopWait := w.nHopWait
    nTick := w.nTick }

/-- What one hop attempt on table index `idx` does to the observed part, up to
and including its completion wait. -/
def Link.attempt (l : Link) (idx : Nat) : Link :=
  { l with
    chnPwr := GET_CHN_PWR_FAST_CONFIG (unCAR_REMOTE_HOPPING_TAB.getD idx 0) NRF905_POWER % 2 ^ 16
    hop := (l.hop + 1) % 2 ^ 32
    txAddr := GET_TX_ADDR_FROM_CHN_PWR
      (GET_CHN_PWR_FAST_CONFIG (unCAR_REMOTE_HOPPING_TAB.getD idx 0) NRF905_POWER % 2 ^ 16) % 2 ^ 32
    rxAddr := GET_RX_ADDR_FROM_CHN_PWR
      (GET_CHN_PWR_FAST_CONFIG (unCAR_REMOTE_HOPPING_TAB.getD idx 0) NRF905_POWER % 2 ^ 16) % 2 ^ 32
    send := (l.send + 1) % 2 ^ 32
    nHopWait := l.nHopWait + 1 }

/-- The observed part after one more received frame is counted. -/
def Link.received (l : Link) : Link :=
  { l with recv := (l.recv + 1) % 2 ^ 32 }

/-- The table indices of the 72 hop attempts, in the order the two nested loops
visit them. -/
def hopOrder : List Nat :=
  List.range unCAR_REMOTE_HOPPING_TAB.length ++
    (List.range unCAR_REMOTE_HOPPING_TAB.length ++ List.range unCAR_REMOTE_HOPPING_TAB.length)

/-- The state in which the body of the inner `for` of `roamNRF905` reaches its
completion wait: lines 234-247 run from `w` at table index `nHoppingIndex`. -/
def hopListenState (e : Env) (pTxBuff : List Nat) (nTxBuffLen : Nat) (nHoppingIndex : Nat)
    (w : World) : World :=
  let w := (setNRF905Mode NRF905_MODE_STD_BY w).2
  let w := w.setCHN_PWR
    (GET_CHN_PWR_FAST_CONFIG (unCAR_REMOTE_HOPPING_TAB.getD nHoppingIndex 0) NRF905_POWER % 2 ^ 16)
  let w := w.incHoppingCNT
  let w := w.setTxAddr (GET_TX_ADDR_FROM_CHN_PWR w.tNRF905Status.unNRF905CHN_PWR % 2 ^ 32)
  let w := w.setRxAddr (GET_RX_ADDR_FROM_CHN_PWR w.tNRF905Status.unNRF905CHN_PWR % 2 ^ 32)
  let w := (writeFastConfig e w.tNRF905Status.unNRF905CHN_PWR w).2
  let w := (writeTxAddr e w.tNRF905Status.unNRF905TxAddr w).2
  let w := (writeRxAddr e w.tNRF905Status.unNRF905RxAddr w).2
  let w := (writeTxPayload e pTxBuff nTxBuffLen w).2
  let w := (setNRF905Mode NRF905_MODE_BURST_TX w).2
  let w := w.incSendFrameCNT
  let w := emit (.osDelay 2) w
  (setNRF905Mode NRF905_MODE_BURST_RX w).2

/-- The state in which `nRF905SendFrame` reaches its data-ready wait once the
mutex is acquired: lines 270-284 run from `w`. -/
def sendListenState (e : Env) (pTxBuff : List Nat) (nTxBuffLen : Nat) (w : World) : World :=
  let w := { emit (.osMutexWait 500) w with nMutex := w.nMutex + 1 }
  let w := { w with held := true }
  let w := (writeTxPayload e pTxBuff nTxBuffLen w).2
  let w := (setNRF905Mode NRF905_MODE_BURST_TX w).2
  let w := w.incSendFrameCNT
  let w := emit (.osDelay 2) w
  (setNRF905Mode NRF905_MODE_BURST_RX w).2

/-- The state in which `nRF905SendFrame` leaves its data-ready wait (line 285),
once the mutex is acquired; both branches of the `if` start from it. -/
def sendWaitedState (e : Env) (pTxBuff : List Nat) (nTxBuffLen : Nat) (w : World) : World :=
  let w := sendListenState e pTxBuff nTxBuffLen w
  { emit (.osSemaphoreWait .DataReadySetHandle 80) w with nDataReady := w.nDataReady + 1 }

/-- The exchange `queryCarStatus` performs when entered in state `w` with
`unReadFrame` on its stack: the `nRF905SendFrame` call of line 309, on the
5-byte request built from the tick read at line 307. -/
def pollExchange (e : Env) (unReadFrame : List Nat) (w : World) : Int × List Nat × World :=
  nRF905SendFrame e ((NRF905_CMD_GET_STATUS % 256) :: bytesOfU32 (e.tick w.nTick % 2 ^ 32)) 5
    unReadFrame 6 { emit .HAL_GetTick w with nTick := w.nTick + 1 }

/-- The channel/power word and the two addresses of `s` are the ones derived
from hopping-table entry `idx`: the word is the entry or-ed with `0x0C00`, and
the transmit and receive addresses are the two masks of `(w | w << 16)` for that
word `w`. -/
def tunedTo (s : nRF905Status_t) (idx : Nat) : Prop :=
  s.unNRF905CHN_PWR = (unCAR_REMOTE_HOPPING_TAB.getD idx 0 ||| 0x0C00) ∧
  s.unNRF905TxAddr = (s.unNRF905CHN_PWR ||| (s.unNRF905CHN_PWR <<< 16)) &&& 0x5CA259AA ∧
  s.unNRF905RxAddr = (s.unNRF905CHN_PWR ||| (s.unNRF905CHN_PWR <<< 16)) &&& 0xA33D59AA

instance (s : nRF905Status_t) (idx : Nat) : Decidable (tunedTo s idx) := by
  unfold tunedTo
  infer_instance

/-- The three control-line writes `setNRF905Mode` makes for mode `m`, in
program order. -/
def modeWrites (m : nRF905Mode_t) : List HwCall :=
  let lv := unNRF905MODE_PIN_LEVEL.getD m.toNat ⟨GPIO_PIN_RESET, GPIO_PIN_RESET, GPIO_PIN_RESET⟩
  [ .HAL_GPIO_WritePin .NRF905_TX_EN lv.nTX_EN_PIN,
    .HAL_GPIO_WritePin .NRF905_TRX_CE lv.nTRX_CE_PIN,
    .HAL_GPIO_WritePin .NRF905_PWR_UP lv.nPWR_UP_PIN ]

/-! ## Concrete environments and inputs -/

/-- The mutex is free, every SPI transfer starts and completes (byte `i` of a
transfer reads `0xA0 + i`), no data-ready interrupt arrives, and the hop loop
sees a completion signal at its 53rd wait only (third pass, fifth table
entry). -/
def envHop53 : Env :=
  { mutexOK := fun _ => true
    spiStartOK := fun _ => true
    spiWaitOK := fun _ => true
    spiRxByte := fun _ i => 0xA0 + i
    dataReadyOK := fun _ => false
    hopWaitOK := fun n => n == 52
    tick := fun n => 1000 + 200 * n }

/-- The mutex is free and the SPI bus works, but the peer never answers: no
data-ready interrupt and no completion signal in the hop loop. -/
def envSilent : Env :=
  { mutexOK := fun _ => true
    spiStartOK := fun _ => true
    spiWaitOK := fun _ => true
    spiRxByte := fun _ i => 0xA0 + i
    dataReadyOK := fun _ => false
    hopWaitOK := fun _ => false
    tick := fun n => 1000 + 200 * n }

/-- The HAL refuses every DMA start (`HAL_BUSY`). -/
def envBusy : Env :=
  { mutexOK := fun _ => true
    spiStartOK := fun _ => false
    spiWaitOK := fun _ => true
    spiRxByte := fun _ i => 0xA0 + i
    dataReadyOK := fun _ => true
    hopWaitOK := fun _ => false
    tick := fun n => 1000 + 200 * n }

/-- The peer answers on the primary channel (data-ready is signalled), but the
SPI transaction that reads the reply, the second one of the exchange, gets no
completion signal within its 50 ticks. -/
def envReadTimeout : Env :=
  { mutexOK := fun _ => true
    spiStartOK := fun _ => true
    spiWaitOK := fun n => n != 1
    spiRxByte := fun _ i => 0xA0 + i
    dataReadyOK := fun _ => true
    hopWaitOK := fun _ => false
    tick := fun n => 1000 + 200 * n }

/-- A 5-byte status request. -/
def sampleCmd : List Nat := [0, 0xE8, 0x03, 0, 0]

/-- A 6-byte receive buffer with recognisable stale contents. -/
def staleFrame : List Nat := [0x11, 0x22, 0x33, 0x44, 0x55, 0x66]

/-! ## Frame lemmas: what mode changes and SPI transactions leave alone -/

theorem link_emit (c : HwCall) (w : World) (h : c ≠ HwCall.osMutexRelease) :
    (emit c w).link = w.link := by
  have h2 : (HwCall.osMutexRelease == c) = false := by
    simpa using fun h3 => h h3.symm
  simp [World.link, World.releases, emit, List.count_append, List.count_cons, h2, h]

theorem link_setNRF905Mode (m : nRF905Mode_t) (w : World) :
    (setNRF905Mode m w).2.link = w.link := by
  unfold setNRF905Mode
  split
  · rfl
  · split
    · rfl
    · simp only []
      have h : ∀ v : World, (v.setMode m).link = v.link := fun v => rfl
      rw [h, link_emit _ _ (by simp), link_emit _ _ (by simp), link_emit _ _ (by simp)]

theorem mode_setNRF905Mode (m : nRF905Mode_t) (w : World) (hm : m ≠ NRF905_MODE_MAX) :
    (setNRF905Mode m w).2.tNRF905Status.tNRF905CurrentMode = m := by
  unfold setNRF905Mode
  have h4 : ¬ m.toNat ≥ NRF905_MODE_MAX.toNat := by
    cases m <;> simp [nRF905Mode_t.toNat] at hm ⊢
  rw [if_neg h4]
  split
  · next h => exact h.symm
  · rfl

theorem link_nRF905SPIDataRW (e : Env) (pTxBuff pRxBuff : List Nat) (unBuffLen : Nat) (w : World) :
    (nRF905SPIDataRW e pTxBuff pRxBuff unBuffLen w).2.2.link = w.link := by
  have hspi : ∀ (v : World) (k : Nat), ({ v with nSpi := k } : World).link = v.link :=
    fun _ _ => rfl
  unfold nRF905SPIDataRW
  split
  · rfl
  · simp only []
    split
    · split <;> simp [link_setNRF905Mode, link_emit, hspi]
    · simp [link_setNRF905Mode, link_emit, hspi]

theorem link_nRF905SPIWrite (e : Env) (unCMD : Nat) (pData : List Nat) (nDataLen : Nat) (w : World) :
    (nRF905SPIWrite e unCMD pData nDataLen w).2.link = w.link := by
  have hbuf : ∀ (v : World) (b : List Nat), ({ v with wrRxBuff := b } : World).link = v.link :=
    fun _ _ => rfl
  have hbuf2 : ∀ (v : World) (b : List Nat), ({ v with wrTxBuff := b } : World).link = v.link :=
    fun _ _ => rfl
  unfold nRF905SPIWrite
  split
  · rfl
  · simp only [hbuf, link_nRF905SPIDataRW, hbuf2]

theorem link_nRF905SPIRead (e : Env) (unCMD : Nat) (pData : List Nat) (nDataLen : Nat) (w : World) :
    (nRF905SPIRead e unCMD pData nDataLen w).2.2.link = w.link := by
  have hbuf : ∀ (v : World) (b : List Nat), ({ v with rdRxBuff := b } : World).link = v.link :=
    fun _ _ => rfl
  have hbuf2 : ∀ (v : World) (b : List Nat), ({ v with rdTxBuff := b } : World).link = v.link :=
    fun _ _ => rfl
  unfold nRF905SPIRead
  split
  · rfl
  · simp only []
    split <;> simp only [hbuf, link_nRF905SPIDataRW, hbuf2]

theorem link_writeFastConfig (e : Env) (x : Nat) (w : World) :
    (writeFastConfig e x w).2.link = w.link :=
  link_nRF905SPIWrite _ _ _ _ _

theorem link_writeTxAddr (e : Env) (x : Nat) (w : World) :
    (writeTxAddr e x w).2.link = w.link :=
  link_nRF905SPIWrite _ _ _ _ _

theorem link_writeRxAddr (e : Env) (x : Nat) (w : World) :
    (writeRxAddr e x w).2.link = w.link :=
  link_nRF905SPIWrite _ _ _ _ _

theorem link_writeTxPayload (e : Env) (pBuff : List Nat) (n : Nat) (w : World) :
    (writeTxPayload e pBuff n w).2.link = w.link :=
  link_nRF905SPIWrite _ _ _ _ _

theorem link_readRxPayload (e : Env) (pBuff : List Nat) (n : Nat) (w : World) :
    (readRxPayload e pBuff n w).2.2.link = w.link :=
  link_nRF905SPIRead _ _ _ _ _

theorem link_setCHN_PWR (w : World) (x : Nat) : (w.setCHN_PWR x).link = { w.link with chnPwr := x } := rfl
theorem link_setTxAddr (w : World) (x : Nat) : (w.setTxAddr x).link = { w.link with txAddr := x } := rfl
theorem link_setRxAddr (w : World) (x : Nat) : (w.setRxAddr x).link = { w.link with rxAddr := x } := rfl
theorem link_incHoppingCNT (w : World) :
    w.incHoppingCNT.link = { w.link with hop := (w.link.hop + 1) % 2 ^ 32 } := rfl
theorem link_incSendFrameCNT (w : World) :
    w.incSendFrameCNT.link = { w.link with send := (w.link.send + 1) % 2 ^ 32 } := rfl
theorem link_incRecvFrameCNT (w : World) :
    w.incRecvFrameCNT.link = w.link.received := rfl
theorem link_nHopWait (w : World) (k : Nat) :
    ({ w with nHopWait := k } : World).link = { w.link with nHopWait := k } := rfl
theorem chnPwr_link (w : World) : w.tNRF905Status.unNRF905CHN_PWR = w.link.chnPwr := rfl

theorem link_hopListenState (e : Env) (tx : List Nat) (ntx idx : Nat) (w : World) :
    { (hopListenState e tx ntx idx w).link with
        nHopWait := (hopListenState e tx ntx idx w).nHopWait + 1 }
      = w.link.attempt idx := by
  have hn : ∀ v : World, v.nHopWait = v.link.nHopWait := fun _ => rfl
  rw [hn]
  simp only [hopListenState, chnPwr_link, link_setNRF905Mode, link_emit,
    link_writeFastConfig, link_writeTxAddr, link_writeRxAddr, link_writeTxPayload, link_setCHN_PWR,
    link_setTxAddr, link_setRxAddr, link_incHoppingCNT, link_incSendFrameCNT, ne_eq, reduceCtorEq,
    not_false_eq_true, Link.attempt]

theorem nHopWait_hopListenState (e : Env) (tx : List Nat) (ntx idx : Nat) (w : World) :
    (hopListenState e tx ntx idx w).nHopWait = w.nHopWait := by
  have h := congrArg Link.nHopWait (link_hopListenState e tx ntx idx w)
  simpa [World.link, Link.attempt] using h

theorem mode_hopListenState (e : Env) (tx : List Nat) (ntx idx : Nat) (w : World) :
    (hopListenState e tx ntx idx w).tNRF905Status.tNRF905CurrentMode
      = NRF905_MODE_BURST_RX := by
  unfold hopListenState
  exact mode_setNRF905Mode _ _ (by decide)

theorem roamNRF905_body_eq (e : Env) (pm : nRF905Mode_t) (tx : List Nat) (ntx nrx idx : Nat)
    (rx : List Nat) (w : World) :
    roamNRF905_body e pm tx ntx nrx idx rx w =
      if e.hopWaitOK (hopListenState e tx ntx idx w).nHopWait then
        (some 0,
          (readRxPayload e rx nrx
            { emit (.osSemaphoreWait .nRF905SPIDMACpltHandle 50) (hopListenState e tx ntx idx w) with
              nHopWait := (hopListenState e tx ntx idx w).nHopWait + 1 }).2.1,
          (setNRF905Mode pm (readRxPayload e rx nrx
            { emit (.osSemaphoreWait .nRF905SPIDMACpltHandle 50) (hopListenState e tx ntx idx w) with
              nHopWait := (hopListenState e tx ntx idx w).nHopWait + 1 }).2.2).2.incRecvFrameCNT)
      else
        (none, rx,
          { emit (.osSemaphoreWait .nRF905SPIDMACpltHandle 50) (hopListenState e tx ntx idx w) with
            nHopWait := (hopListenState e tx ntx idx w).nHopWait + 1 }) :=
  rfl

theorem link_hopWaited (e : Env) (tx : List Nat) (ntx idx : Nat) (w : World) :
    ({ emit (.osSemaphoreWait .nRF905SPIDMACpltHandle 50) (hopListenState e tx ntx idx w) with
        nHopWait := (hopListenState e tx ntx idx w).nHopWait + 1 } : World).link
      = w.link.attempt idx := by
  rw [link_nHopWait, link_emit _ _ (by simp)]
  exact link_hopListenState e tx ntx idx w

theorem roamNRF905_body_timeout (e : Env) (pm : nRF905Mode_t) (tx : List Nat) (ntx nrx idx : Nat)
    (rx : List Nat) (w : World) (h : e.hopWaitOK w.nHopWait = false) :
    ∃ w', roamNRF905_body e pm tx ntx nrx idx rx w = (none, rx, w') ∧
      w'.link = w.link.attempt idx ∧
      w'.tNRF905Status.tNRF905CurrentMode = NRF905_MODE_BURST_RX := by
  have hc : e.hopWaitOK (hopListenState e tx ntx idx w).nHopWait = false := by
    rw [nHopWait_hopListenState]; exact h
  rw [roamNRF905_body_eq, hc]
  exact ⟨_, rfl, link_hopWaited e tx ntx idx w, mode_hopListenState e tx ntx idx w⟩

theorem roamNRF905_body_signal (e : Env) (pm : nRF905Mode_t) (tx : List Nat) (ntx nrx idx : Nat)
    (rx : List Nat) (w : World) (h : e.hopWaitOK w.nHopWait = true) :
    ∃ rx' w', roamNRF905_body e pm tx ntx nrx idx rx w = (some 0, rx', w') ∧
      w'.link = (w.link.attempt idx).received ∧
      (pm ≠ NRF905_MODE_MAX → w'.tNRF905Status.tNRF905CurrentMode = pm) := by
  have hc : e.hopWaitOK (hopListenState e tx ntx idx w).nHopWait = true := by
    rw [nHopWait_hopListenState]; exact h
  rw [roamNRF905_body_eq, hc]
  refine ⟨_, _, rfl, ?_, ?_⟩
  · rw [link_incRecvFrameCNT, link_setNRF905Mode, link_readRxPayload, link_hopWaited]
  · intro hpm
    exact mode_setNRF905Mode pm _ hpm


theorem roamNRF905_forIndex_timeout (e : Env) (pm : nRF905Mode_t) (tx : List Nat) (ntx nrx : Nat)
    (l : List Nat) : ∀ (rx : List Nat) (w : World),
    (∀ i, i < l.length → e.hopWaitOK (w.nHopWait + i) = false) →
    ∃ w', roamNRF905_forIndex e pm tx ntx nrx l rx w = (none, rx, w') ∧
      w'.link = l.foldl Link.attempt w.link := by
  induction l with
  | nil => intro rx w _; exact ⟨w, rfl, rfl⟩
  | cons idx rest ih =>
    intro rx w h
    obtain ⟨w1, hb, hl, -⟩ := roamNRF905_body_timeout e pm tx ntx nrx idx rx w (by simpa using h 0)
    have hn : w1.nHopWait = w.nHopWait + 1 := congrArg Link.nHopWait hl
    obtain ⟨w2, hr, hl2⟩ := ih rx w1 (by
      intro i hi
      rw [hn, Nat.add_assoc, Nat.add_comm 1 i]
      exact h (i + 1) (by simpa using hi))
    refine ⟨w2, ?_, ?_⟩
    · simp only [roamNRF905_forIndex, hb, hr]
    · rw [hl2, hl]; rfl

theorem roamNRF905_forIndex_signal (e : Env) (pm : nRF905Mode_t) (tx : List Nat) (ntx nrx : Nat)
    (l : List Nat) : ∀ (j : Nat) (rx : List Nat) (w : World), j < l.length →
    (∀ i, i < j → e.hopWaitOK (w.nHopWait + i) = false) →
    e.hopWaitOK (w.nHopWait + j) = true →
    ∃ rx' w', roamNRF905_forIndex e pm tx ntx nrx l rx w = (some 0, rx', w') ∧
      w'.link = ((l.take (j + 1)).foldl Link.attempt w.link).received ∧
      (pm ≠ NRF905_MODE_MAX → w'.tNRF905Status.tNRF905CurrentMode = pm) := by
  induction l with
  | nil => intro j rx w hj; simp at hj
  | cons idx rest ih =>
    intro j rx w hj hto hsig
    cases j with
    | zero =>
      obtain ⟨rx1, w1, hb, hl, hm⟩ :=
        roamNRF905_body_signal e pm tx ntx nrx idx rx w (by simpa using hsig)
      exact ⟨rx1, w1, by simp only [roamNRF905_forIndex, hb], by rw [hl]; rfl, hm⟩
    | succ j =>
      obtain ⟨w1, hb, hl, -⟩ :=
        roamNRF905_body_timeout e pm tx ntx nrx idx rx w (by simpa using hto 0 (Nat.succ_pos j))
      have hn : w1.nHopWait = w.nHopWait + 1 := congrArg Link.nHopWait hl
      obtain ⟨rx2, w2, hr, hl2, hm⟩ := ih j rx w1 (by simpa using hj)
        (by
          intro i hi
          rw [hn, Nat.add_assoc, Nat.add_comm 1 i]
          exact hto (i + 1) (by omega))
        (by rw [hn, Nat.add_assoc, Nat.add_comm 1 j]; exact hsig)
      refine ⟨rx2, w2, ?_, ?_, hm⟩
      · simp only [roamNRF905_forIndex, hb, hr]
      · rw [hl2, hl]; rfl

theorem roamNRF905_forIndex_append (e : Env) (pm : nRF905Mode_t) (tx : List Nat) (ntx nrx : Nat)
    (l1 l2 : List Nat) : ∀ (rx : List Nat) (w : World),
    roamNRF905_forIndex e pm tx ntx nrx (l1 ++ l2) rx w =
      match roamNRF905_forIndex e pm tx ntx nrx l1 rx w with
      | (some r, rx, w) => (some r, rx, w)
      | (none, rx, w) => roamNRF905_forIndex e pm tx ntx nrx l2 rx w := by
  induction l1 with
  | nil => intro rx w; rfl
  | cons idx rest ih =>
    intro rx w
    simp only [List.cons_append, roamNRF905_forIndex]
    rcases roamNRF905_body e pm tx ntx nrx idx rx w with ⟨_ | r, rx1, w1⟩
    · exact ih rx1 w1
    · rfl

theorem roamNRF905_forTimes_eq (e : Env) (pm : nRF905Mode_t) (tx : List Nat) (ntx nrx : Nat)
    (rx : List Nat) (w : World) :
    roamNRF905_forTimes e pm tx ntx nrx (List.range MAX_HOPPING_RETRY_TIMES) rx w =
      roamNRF905_forIndex e pm tx ntx nrx hopOrder rx w := by
  have h3 : List.range MAX_HOPPING_RETRY_TIMES = [0, 1, 2] := by decide
  rw [h3, hopOrder, roamNRF905_forIndex_append]
  simp only [roamNRF905_forTimes]
  rcases roamNRF905_forIndex e pm tx ntx nrx (List.range unCAR_REMOTE_HOPPING_TAB.length) rx w
    with ⟨_ | r, rx1, w1⟩
  · simp only []
    rw [roamNRF905_forIndex_append]
    rcases roamNRF905_forIndex e pm tx ntx nrx (List.range unCAR_REMOTE_HOPPING_TAB.length) rx1 w1
      with ⟨_ | r, rx2, w2⟩
    · simp only []
      rcases roamNRF905_forIndex e pm tx ntx nrx (List.range unCAR_REMOTE_HOPPING_TAB.length) rx2 w2
        with ⟨_ | r, rx3, w3⟩ <;> rfl
    · rfl
  · rfl

theorem hopOrder_length : hopOrder.length = 72 := by decide

theorem foldl_attempt_cons (rest : List Nat) : ∀ (idx : Nat) (L : Link),
    (rest.foldl Link.attempt (L.attempt idx)).hop = (L.hop + (rest.length + 1)) % 2 ^ 32 ∧
    (rest.foldl Link.attempt (L.attempt idx)).send = (L.send + (rest.length + 1)) % 2 ^ 32 ∧
    (rest.foldl Link.attempt (L.attempt idx)).nHopWait = L.nHopWait + (rest.length + 1) ∧
    (rest.foldl Link.attempt (L.attempt idx)).recv = L.recv ∧
    (rest.foldl Link.attempt (L.attempt idx)).held = L.held ∧
    (rest.foldl Link.attempt (L.attempt idx)).releases = L.releases := by
  induction rest with
  | nil => intro idx L; exact ⟨rfl, rfl, rfl, rfl, rfl, rfl⟩
  | cons i2 r2 ih =>
    intro idx L
    obtain ⟨h1, h2, h3, h4, h5, h6⟩ := ih i2 (L.attempt idx)
    simp only [List.foldl_cons, List.length_cons]
    refine ⟨?_, ?_, ?_, ?_, ?_, ?_⟩
    · rw [h1]; show ((L.hop + 1) % 2 ^ 32 + (r2.length + 1)) % 2 ^ 32 = _; omega
    · rw [h2]; show ((L.send + 1) % 2 ^ 32 + (r2.length + 1)) % 2 ^ 32 = _; omega
    · rw [h3]; show L.nHopWait + 1 + (r2.length + 1) = _; omega
    · rw [h4]; rfl
    · rw [h5]; rfl
    · rw [h6]; rfl

theorem foldl_attempt_ne_nil (l : List Nat) (L : Link) (hl : l ≠ []) :
    (l.foldl Link.attempt L).hop = (L.hop + l.length) % 2 ^ 32 ∧
    (l.foldl Link.attempt L).send = (L.send + l.length) % 2 ^ 32 ∧
    (l.foldl Link.attempt L).nHopWait = L.nHopWait + l.length ∧
    (l.foldl Link.attempt L).recv = L.recv ∧
    (l.foldl Link.attempt L).held = L.held ∧
    (l.foldl Link.attempt L).releases = L.releases := by
  cases l with
  | nil => exact absurd rfl hl
  | cons idx rest => exact foldl_attempt_cons rest idx L

theorem foldl_attempt_snoc (front : List Nat) (last : Nat) (L : Link) :
    ((front ++ [last]).foldl Link.attempt L).chnPwr =
      GET_CHN_PWR_FAST_CONFIG (unCAR_REMOTE_HOPPING_TAB.getD last 0) NRF905_POWER % 2 ^ 16 ∧
    ((front ++ [last]).foldl Link.attempt L).txAddr =
      GET_TX_ADDR_FROM_CHN_PWR
        (GET_CHN_PWR_FAST_CONFIG (unCAR_REMOTE_HOPPING_TAB.getD last 0) NRF905_POWER % 2 ^ 16)
        % 2 ^ 32 ∧
    ((front ++ [last]).foldl Link.attempt L).rxAddr =
      GET_RX_ADDR_FROM_CHN_PWR
        (GET_CHN_PWR_FAST_CONFIG (unCAR_REMOTE_HOPPING_TAB.getD last 0) NRF905_POWER % 2 ^ 16)
        % 2 ^ 32 := by
  rw [List.foldl_append]
  exact ⟨rfl, rfl, rfl⟩

theorem hopOrder_take_succ (j : Nat) (hj : j < 72) :
    hopOrder.take (j + 1) = hopOrder.take j ++ [j % 24] := by
  revert j
  decide

theorem roamNRF905_signal (e : Env) (tx : List Nat) (ntx : Nat) (rx : List Nat) (nrx : Nat)
    (w : World) (j : Nat) (hj : j < 72)
    (hto : ∀ i, i < j → e.hopWaitOK (w.nHopWait + i) = false)
    (hsig : e.hopWaitOK (w.nHopWait + j) = true) :
    ∃ rx' w', roamNRF905 e tx ntx rx nrx w = (0, rx', w') ∧
      w'.link = ((hopOrder.take (j + 1)).foldl Link.attempt w.link).received ∧
      (w.tNRF905Status.tNRF905CurrentMode ≠ NRF905_MODE_MAX →
        w'.tNRF905Status.tNRF905CurrentMode = w.tNRF905Status.tNRF905CurrentMode) := by
  obtain ⟨rx1, w1, h1, h2, h3⟩ := roamNRF905_forIndex_signal e
    w.tNRF905Status.tNRF905CurrentMode tx ntx nrx hopOrder j rx w
    (by rw [hopOrder_length]; exact hj) hto hsig
  refine ⟨rx1, w1, ?_, h2, h3⟩
  simp only [roamNRF905, roamNRF905_forTimes_eq, h1]

theorem roamNRF905_timeout (e : Env) (tx : List Nat) (ntx : Nat) (rx : List Nat) (nrx : Nat)
    (w : World) (hto : ∀ i, i < 72 → e.hopWaitOK (w.nHopWait + i) = false) :
    ∃ w', roamNRF905 e tx ntx rx nrx w = (-1, rx, w') ∧
      w'.link = hopOrder.foldl Link.attempt w.link ∧
      (w.tNRF905Status.tNRF905CurrentMode ≠ NRF905_MODE_MAX →
        w'.tNRF905Status.tNRF905CurrentMode = w.tNRF905Status.tNRF905CurrentMode) := by
  obtain ⟨w1, h1, h2⟩ := roamNRF905_forIndex_timeout e
    w.tNRF905Status.tNRF905CurrentMode tx ntx nrx hopOrder rx w
    (by rw [hopOrder_length]; exact hto)
  refine ⟨(setNRF905Mode w.tNRF905Status.tNRF905CurrentMode w1).2, ?_, ?_, ?_⟩
  · simp only [roamNRF905, roamNRF905_forTimes_eq, h1]
  · rw [link_setNRF905Mode, h2]
  · intro hv
    exact mode_setNRF905Mode _ _ hv

theorem frame_roamNRF905_body (e : Env) (pm : nRF905Mode_t) (tx : List Nat) (ntx nrx idx : Nat)
    (rx : List Nat) (w : World) :
    (roamNRF905_body e pm tx ntx nrx idx rx w).2.2.releases = w.releases ∧
    (roamNRF905_body e pm tx ntx nrx idx rx w).2.2.tRemoteCarStatus = w.tRemoteCarStatus := by
  cases h : e.hopWaitOK w.nHopWait with
  | false =>
    obtain ⟨w1, hb, hl, -⟩ := roamNRF905_body_timeout e pm tx ntx nrx idx rx w h
    rw [hb]
    exact ⟨congrArg Link.releases hl, congrArg Link.car hl⟩
  | true =>
    obtain ⟨rx1, w1, hb, hl, -⟩ := roamNRF905_body_signal e pm tx ntx nrx idx rx w h
    rw [hb]
    exact ⟨congrArg Link.releases hl, congrArg Link.car hl⟩

theorem frame_roamNRF905_forIndex (e : Env) (pm : nRF905Mode_t) (tx : List Nat) (ntx nrx : Nat)
    (l : List Nat) : ∀ (rx : List Nat) (w : World),
    (roamNRF905_forIndex e pm tx ntx nrx l rx w).2.2.releases = w.releases ∧
    (roamNRF905_forIndex e pm tx ntx nrx l rx w).2.2.tRemoteCarStatus = w.tRemoteCarStatus := by
  induction l with
  | nil => intro rx w; exact ⟨rfl, rfl⟩
  | cons idx rest ih =>
    intro rx w
    have hb := frame_roamNRF905_body e pm tx ntx nrx idx rx w
    simp only [roamNRF905_forIndex]
    rcases hr : roamNRF905_body e pm tx ntx nrx idx rx w with ⟨_ | r, rx1, w1⟩
    · rw [hr] at hb
      simp only []
      rw [(ih rx1 w1).1, (ih rx1 w1).2]
      exact hb
    · rw [hr] at hb
      exact hb

theorem frame_roamNRF905 (e : Env) (tx : List Nat) (ntx : Nat) (rx : List Nat) (nrx : Nat)
    (w : World) :
    (roamNRF905 e tx ntx rx nrx w).2.2.releases = w.releases ∧
    (roamNRF905 e tx ntx rx nrx w).2.2.tRemoteCarStatus = w.tRemoteCarStatus := by
  have hf := frame_roamNRF905_forIndex e w.tNRF905Status.tNRF905CurrentMode tx ntx nrx
    hopOrder rx w
  simp only [roamNRF905, roamNRF905_forTimes_eq]
  rcases hr : roamNRF905_forIndex e w.tNRF905Status.tNRF905CurrentMode tx ntx nrx hopOrder rx w
    with ⟨_ | r, rx1, w1⟩
  · rw [hr] at hf
    simp only []
    exact ⟨(congrArg Link.releases (link_setNRF905Mode _ w1)).trans hf.1,
      (congrArg Link.car (link_setNRF905Mode _ w1)).trans hf.2⟩
  · rw [hr] at hf
    exact hf

theorem link_sendListenState (e : Env) (tx : List Nat) (ntx : Nat) (w : World) :
    (sendListenState e tx ntx w).link =
      { w.link with nMutex := w.link.nMutex + 1, held := true,
                    send := (w.link.send + 1) % 2 ^ 32 } := by
  have h1 : ∀ (v : World) (k : Nat),
      ({ v with nMutex := k } : World).link = { v.link with nMutex := k } := fun _ _ => rfl
  have h2 : ∀ (v : World) (b : Bool),
      ({ v with held := b } : World).link = { v.link with held := b } := fun _ _ => rfl
  unfold sendListenState
  rw [link_setNRF905Mode, link_emit _ _ (by simp), link_incSendFrameCNT, link_setNRF905Mode,
    link_writeTxPayload, h2, h1, link_emit _ _ (by simp)]
  rfl

theorem mode_sendListenState (e : Env) (tx : List Nat) (ntx : Nat) (w : World) :
    (sendListenState e tx ntx w).tNRF905Status.tNRF905CurrentMode = NRF905_MODE_BURST_RX := by
  unfold sendListenState
  exact mode_setNRF905Mode _ _ (by decide)

theorem link_sendWaitedState (e : Env) (tx : List Nat) (ntx : Nat) (w : World) :
    (sendWaitedState e tx ntx w).link =
      { w.link with nMutex := w.link.nMutex + 1, held := true,
                    send := (w.link.send + 1) % 2 ^ 32,
                    nDataReady := w.link.nDataReady + 1 } := by
  have h1 : ∀ (v : World) (k : Nat),
      ({ v with nDataReady := k } : World).link = { v.link with nDataReady := k } :=
    fun _ _ => rfl
  have hn : (sendListenState e tx ntx w).nDataReady = w.nDataReady :=
    congrArg Link.nDataReady (link_sendListenState e tx ntx w)
  unfold sendWaitedState
  rw [h1, link_emit _ _ (by simp), hn, link_sendListenState]
  rfl

theorem mode_sendWaitedState (e : Env) (tx : List Nat) (ntx : Nat) (w : World) :
    (sendWaitedState e tx ntx w).tNRF905Status.tNRF905CurrentMode = NRF905_MODE_BURST_RX :=
  mode_sendListenState e tx ntx w

theorem nRF905SendFrame_eq (e : Env) (tx : List Nat) (ntx : Nat) (rx : List Nat) (nrx : Nat)
    (w : World) :
    nRF905SendFrame e tx ntx rx nrx w =
      if e.mutexOK w.nMutex = false then
        (-1, rx, { emit (.osMutexWait 500) w with nMutex := w.nMutex + 1 })
      else if e.dataReadyOK (sendListenState e tx ntx w).nDataReady then
        (0, (readRxPayload e rx nrx (sendWaitedState e tx ntx w)).2.1,
          { emit .osMutexRelease
              (setNRF905Mode w.tNRF905Status.tNRF905CurrentMode
                (readRxPayload e rx nrx (sendWaitedState e tx ntx w)).2.2).2.incRecvFrameCNT with
            held := false })
      else
        ((roamNRF905 e tx ntx rx nrx (sendWaitedState e tx ntx w)).1,
          (roamNRF905 e tx ntx rx nrx (sendWaitedState e tx ntx w)).2.1,
          { emit .osMutexRelease
              (setNRF905Mode w.tNRF905Status.tNRF905CurrentMode
                (roamNRF905 e tx ntx rx nrx (sendWaitedState e tx ntx w)).2.2).2 with
            held := false }) :=
  rfl

theorem link_release (w : World) :
    ({ emit .osMutexRelease w with held := false } : World).link =
      { w.link with held := false, releases := w.link.releases + 1 } := by
  simp [World.link, World.releases, emit, List.count_append]


theorem frame_nRF905SendFrame (e : Env) (tx : List Nat) (ntx : Nat) (rx : List Nat) (nrx : Nat)
    (w : World) :
    (nRF905SendFrame e tx ntx rx nrx w).2.2.tRemoteCarStatus = w.tRemoteCarStatus ∧
    (nRF905SendFrame e tx ntx rx nrx w).2.2.releases =
      w.releases + (if e.mutexOK w.nMutex then 1 else 0) ∧
    (e.mutexOK w.nMutex = true → (nRF905SendFrame e tx ntx rx nrx w).2.2.held = false) := by
  rw [nRF905SendFrame_eq]
  cases hlock : e.mutexOK w.nMutex with
  | false =>
    refine ⟨rfl, ?_, fun h => absurd h (by simp)⟩
    have h := congrArg Link.releases (link_emit (.osMutexWait 500) w (by simp))
    simpa using h
  | true =>
    have hs := link_sendWaitedState e tx ntx w
    simp only [Bool.true_eq_false, if_false, if_true]
    split
    · have h : ({ emit .osMutexRelease
          (setNRF905Mode w.tNRF905Status.tNRF905CurrentMode
            (readRxPayload e rx nrx (sendWaitedState e tx ntx w)).2.2).2.incRecvFrameCNT with
          held := false } : World).link = _ := link_release _
      rw [link_incRecvFrameCNT, link_setNRF905Mode, link_readRxPayload, hs] at h
      exact ⟨congrArg Link.car h, congrArg Link.releases h, fun _ => rfl⟩
    · have h : ({ emit .osMutexRelease
          (setNRF905Mode w.tNRF905Status.tNRF905CurrentMode
            (roamNRF905 e tx ntx rx nrx (sendWaitedState e tx ntx w)).2.2).2 with
          held := false } : World).link = _ := link_release _
      rw [link_setNRF905Mode] at h
      have hr := frame_roamNRF905 e tx ntx rx nrx (sendWaitedState e tx ntx w)
      refine ⟨(congrArg Link.car h).trans (hr.2.trans (congrArg Link.car hs)), ?_, fun _ => rfl⟩
      have h2 := congrArg Link.releases h
      have h3 : (sendWaitedState e tx ntx w).releases = w.releases := congrArg Link.releases hs
      exact h2.trans (by
        show (roamNRF905 e tx ntx rx nrx (sendWaitedState e tx ntx w)).2.2.releases + 1 = _
        rw [hr.1, h3])

theorem hop_word (idx : Nat) (h : idx < 24) :
    GET_CHN_PWR_FAST_CONFIG (unCAR_REMOTE_HOPPING_TAB.getD idx 0) NRF905_POWER % 2 ^ 16 =
      unCAR_REMOTE_HOPPING_TAB.getD idx 0 ||| 0x0C00 := by
  revert idx
  decide

theorem hop_txAddr (idx : Nat) (h : idx < 24) :
    GET_TX_ADDR_FROM_CHN_PWR (unCAR_REMOTE_HOPPING_TAB.getD idx 0 ||| 0x0C00) % 2 ^ 32 =
      ((unCAR_REMOTE_HOPPING_TAB.getD idx 0 ||| 0x0C00) |||
        ((unCAR_REMOTE_HOPPING_TAB.getD idx 0 ||| 0x0C00) <<< 16)) &&& 0x5CA259AA := by
  revert idx
  decide

theorem hop_rxAddr (idx : Nat) (h : idx < 24) :
    GET_RX_ADDR_FROM_CHN_PWR (unCAR_REMOTE_HOPPING_TAB.getD idx 0 ||| 0x0C00) % 2 ^ 32 =
      ((unCAR_REMOTE_HOPPING_TAB.getD idx 0 ||| 0x0C00) |||
        ((unCAR_REMOTE_HOPPING_TAB.getD idx 0 ||| 0x0C00) <<< 16)) &&& 0xA33D59AA := by
  revert idx
  decide

theorem hopOrder_take_ne_nil (j : Nat) : hopOrder.take (j + 1) ≠ [] := by
  simp [hopOrder, unCAR_REMOTE_HOPPING_TAB, List.range_succ_eq_map]

theorem hopOrder_take_length (j : Nat) (hj : j < 72) : (hopOrder.take (j + 1)).length = j + 1 := by
  rw [List.length_take, hopOrder_length]
  omega

theorem roamNRF905_kth_fields (e : Env) (pTxBuff : List Nat) (nTxBuffLen : Nat)
    (pRxBuff : List Nat) (nRxBuffLen : Nat) (w : World) (k : Nat)
    (hk1 : 1 ≤ k) (hk72 : k ≤ 72)
    (hto : ∀ i, i < k - 1 → e.hopWaitOK (w.nHopWait + i) = false)
    (hsig : e.hopWaitOK (w.nHopWait + (k - 1)) = true) :
    (roamNRF905 e pTxBuff nTxBuffLen pRxBuff nRxBuffLen w).1 = 0 ∧
    (roamNRF905 e pTxBuff nTxBuffLen pRxBuff nRxBuffLen w).2.2.nHopWait = w.nHopWait + k ∧
    (roamNRF905 e pTxBuff nTxBuffLen pRxBuff nRxBuffLen w).2.2.tNRF905Status.unNRF905HoppingCNT =
      (w.tNRF905Status.unNRF905HoppingCNT + k) % 2 ^ 32 ∧
    (roamNRF905 e pTxBuff nTxBuffLen pRxBuff nRxBuffLen w).2.2.tNRF905Status.unNRF905CHN_PWR =
      (unCAR_REMOTE_HOPPING_TAB.getD ((k - 1) % 24) 0 ||| 0x0C00) ∧
    (roamNRF905 e pTxBuff nTxBuffLen pRxBuff nRxBuffLen w).2.2.tNRF905Status.unNRF905TxAddr =
      ((unCAR_REMOTE_HOPPING_TAB.getD ((k - 1) % 24) 0 ||| 0x0C00) |||
        ((unCAR_REMOTE_HOPPING_TAB.getD ((k - 1) % 24) 0 ||| 0x0C00) <<< 16)) &&& 0x5CA259AA ∧
    (roamNRF905 e pTxBuff nTxBuffLen pRxBuff nRxBuffLen w).2.2.tNRF905Status.unNRF905RxAddr =
      ((unCAR_REMOTE_HOPPING_TAB.getD ((k - 1) % 24) 0 ||| 0x0C00) |||
        ((unCAR_REMOTE_HOPPING_TAB.getD ((k - 1) % 24) 0 ||| 0x0C00) <<< 16)) &&& 0xA33D59AA := by
  obtain ⟨j, rfl⟩ : ∃ j, k = j + 1 := ⟨k - 1, by omega⟩
  have hj : j < 72 := by omega
  simp only [Nat.add_sub_cancel] at hto hsig ⊢
  obtain ⟨rx1, w1, hr, hl, -⟩ :=
    roamNRF905_signal e pTxBuff nTxBuffLen pRxBuff nRxBuffLen w j hj hto hsig
  obtain ⟨f1, -, f3, -, -, -⟩ :=
    foldl_attempt_ne_nil (hopOrder.take (j + 1)) w.link (hopOrder_take_ne_nil j)
  rw [hopOrder_take_length j hj] at f1 f3
  have hs := foldl_attempt_snoc (hopOrder.take j) (j % 24) w.link
  rw [← hopOrder_take_succ j hj, hop_word _ (Nat.mod_lt _ (by decide)),
    hop_txAddr _ (Nat.mod_lt _ (by decide)), hop_rxAddr _ (Nat.mod_lt _ (by decide))] at hs
  rw [hr]
  refine ⟨rfl, ?_, ?_, ?_, ?_, ?_⟩
  · exact (congrArg Link.nHopWait hl).trans f3
  · exact (congrArg Link.hop hl).trans f1
  · exact (congrArg Link.chnPwr hl).trans hs.1
  · exact (congrArg Link.txAddr hl).trans hs.2.1
  · exact (congrArg Link.rxAddr hl).trans hs.2.2

/-- C1: when `nRF905SendFrame` acquires the mutex, its data-ready wait times
out, and the `k`-th completion wait of the hop loop (`1 ≤ k ≤ 72`) is the first
one signalled, it returns 0, the current mode at return is the mode recorded
before the exchange, and the receive-frame counter has grown by exactly 1
modulo `2^32`; this holds whatever the SPI transfers do. -/
theorem nRF905SendFrame_hop_success (e : Env) (pTxBuff : List Nat) (nTxBuffLen : Nat)
    (pRxBuff : List Nat) (nRxBuffLen : Nat) (w : World) (k : Nat)
    (hk1 : 1 ≤ k) (hk72 : k ≤ 72)
    (hmode : w.tNRF905Status.tNRF905CurrentMode ≠ NRF905_MODE_MAX)
    (hlock : e.mutexOK w.nMutex = true)
    (hdr : e.dataReadyOK w.nDataReady = false)
    (hto : ∀ i, i < k - 1 → e.hopWaitOK (w.nHopWait + i) = false)
    (hsig : e.hopWaitOK (w.nHopWait + (k - 1)) = true) :
    (nRF905SendFrame e pTxBuff nTxBuffLen pRxBuff nRxBuffLen w).1 = 0 ∧
    (nRF905SendFrame e pTxBuff nTxBuffLen pRxBuff nRxBuffLen w).2.2.tNRF905Status.tNRF905CurrentMode
      = w.tNRF905Status.tNRF905CurrentMode ∧
    (nRF905SendFrame e pTxBuff nTxBuffLen pRxBuff nRxBuffLen w).2.2.tNRF905Status.unNRF905RecvFrameCNT
      = (w.tNRF905Status.unNRF905RecvFrameCNT + 1) % 2 ^ 32 := by
  obtain ⟨j, rfl⟩ : ∃ j, k = j + 1 := ⟨k - 1, by omega⟩
  have hj : j < 72 := by omega
  simp only [Nat.add_sub_cancel] at hto hsig
  have hs := link_sendWaitedState e pTxBuff nTxBuffLen w
  have hn : (sendWaitedState e pTxBuff nTxBuffLen w).nHopWait = w.nHopWait :=
    congrArg Link.nHopWait hs
  have hd : e.dataReadyOK (sendListenState e pTxBuff nTxBuffLen w).nDataReady = false := by
    have h := congrArg Link.nDataReady (link_sendListenState e pTxBuff nTxBuffLen w)
    exact (congrArg e.dataReadyOK h).trans hdr
  obtain ⟨rx1, w1, hr, hl, -⟩ := roamNRF905_signal e pTxBuff nTxBuffLen pRxBuff nRxBuffLen
    (sendWaitedState e pTxBuff nTxBuffLen w) j hj (by rw [hn]; exact hto) (by rw [hn]; exact hsig)
  obtain ⟨-, -, -, f4, -, -⟩ := foldl_attempt_ne_nil (hopOrder.take (j + 1))
    (sendWaitedState e pTxBuff nTxBuffLen w).link (hopOrder_take_ne_nil j)
  rw [nRF905SendFrame_eq, hlock, hd, hr]
  refine ⟨rfl, mode_setNRF905Mode _ _ hmode, ?_⟩
  have h1 : ({ emit .osMutexRelease (setNRF905Mode w.tNRF905Status.tNRF905CurrentMode w1).2 with
      held := false } : World).link = _ := link_release _
  rw [link_setNRF905Mode, hl] at h1
  have h2 := congrArg Link.recv h1
  refine h2.trans ?_
  show ((List.foldl Link.attempt (sendWaitedState e pTxBuff nTxBuffLen w).link
    (List.take (j + 1) hopOrder)).recv + 1) % 2 ^ 32 = _
  rw [f4, congrArg Link.recv hs]
  rfl

/-- C1 at the spec's scenario: third pass, fifth table entry (`k = 53`), from
the power-on state. -/
theorem nRF905SendFrame_hop_success_witness :
    (nRF905SendFrame envHop53 sampleCmd 5 staleFrame 6 world0).1 = 0 ∧
    (nRF905SendFrame envHop53 sampleCmd 5 staleFrame 6 world0).2.2.tNRF905Status.tNRF905CurrentMode
      = NRF905_MODE_PWR_DOWN ∧
    (nRF905SendFrame envHop53 sampleCmd 5 staleFrame 6 world0).2.2.tNRF905Status.unNRF905RecvFrameCNT
      = 1 :=
  nRF905SendFrame_hop_success envHop53 sampleCmd 5 staleFrame 6 world0 53 (by decide) (by decide)
    (by decide) (by decide) (by decide) (by decide) (by decide)

theorem hopOrder_ne_nil : hopOrder ≠ [] := by decide

/-- C2: when no completion wait of the hop loop is ever signalled, `roamNRF905`
entered in any state `wr` with a valid mode makes exactly 72 attempts (72 waits
consumed, hop counter advanced by 72 modulo `2^32`) and returns -1 with the
current mode equal to its mode on entry; and `nRF905SendFrame`, having acquired
the mutex and timed out on data-ready, returns -1 with the current mode equal to
the mode recorded before the exchange. This holds whatever the SPI transfers
do. -/
theorem nRF905SendFrame_hop_exhausted (e : Env) (pTxBuff : List Nat) (nTxBuffLen : Nat)
    (pRxBuff : List Nat) (nRxBuffLen : Nat) (w wr : World)
    (hmode : w.tNRF905Status.tNRF905CurrentMode ≠ NRF905_MODE_MAX)
    (hmoder : wr.tNRF905Status.tNRF905CurrentMode ≠ NRF905_MODE_MAX)
    (hlock : e.mutexOK w.nMutex = true)
    (hdr : e.dataReadyOK w.nDataReady = false)
    (hto : ∀ i, i < 72 → e.hopWaitOK (w.nHopWait + i) = false)
    (htor : ∀ i, i < 72 → e.hopWaitOK (wr.nHopWait + i) = false) :
    ((roamNRF905 e pTxBuff nTxBuffLen pRxBuff nRxBuffLen wr).1 = -1 ∧
      (roamNRF905 e pTxBuff nTxBuffLen pRxBuff nRxBuffLen wr).2.2.nHopWait = wr.nHopWait + 72 ∧
      (roamNRF905 e pTxBuff nTxBuffLen pRxBuff nRxBuffLen wr).2.2.tNRF905Status.unNRF905HoppingCNT
        = (wr.tNRF905Status.unNRF905HoppingCNT + 72) % 2 ^ 32 ∧
      (roamNRF905 e pTxBuff nTxBuffLen pRxBuff nRxBuffLen wr).2.2.tNRF905Status.tNRF905CurrentMode
        = wr.tNRF905Status.tNRF905CurrentMode) ∧
    ((nRF905SendFrame e pTxBuff nTxBuffLen pRxBuff nRxBuffLen w).1 = -1 ∧
      (nRF905SendFrame e pTxBuff nTxBuffLen pRxBuff nRxBuffLen w).2.2.tNRF905Status.unNRF905HoppingCNT
        = (w.tNRF905Status.unNRF905HoppingCNT + 72) % 2 ^ 32 ∧
      (nRF905SendFrame e pTxBuff nTxBuffLen pRxBuff nRxBuffLen w).2.2.tNRF905Status.tNRF905CurrentMode
        = w.tNRF905Status.tNRF905CurrentMode) := by
  constructor
  · obtain ⟨w1, hr, hl, hm⟩ := roamNRF905_timeout e pTxBuff nTxBuffLen pRxBuff nRxBuffLen wr htor
    obtain ⟨f1, -, f3, -, -, -⟩ := foldl_attempt_ne_nil hopOrder wr.link hopOrder_ne_nil
    rw [hopOrder_length] at f1 f3
    rw [hr]
    exact ⟨rfl, (congrArg Link.nHopWait hl).trans f3, (congrArg Link.hop hl).trans f1, hm hmoder⟩
  · have hs := link_sendWaitedState e pTxBuff nTxBuffLen w
    have hn : (sendWaitedState e pTxBuff nTxBuffLen w).nHopWait = w.nHopWait :=
      congrArg Link.nHopWait hs
    have hd : e.dataReadyOK (sendListenState e pTxBuff nTxBuffLen w).nDataReady = false := by
      have h := congrArg Link.nDataReady (link_sendListenState e pTxBuff nTxBuffLen w)
      exact (congrArg e.dataReadyOK h).trans hdr
    obtain ⟨w1, hr, hl, -⟩ := roamNRF905_timeout e pTxBuff nTxBuffLen pRxBuff nRxBuffLen
      (sendWaitedState e pTxBuff nTxBuffLen w) (by rw [hn]; exact hto)
    obtain ⟨f1, -, -, -, -, -⟩ := foldl_attempt_ne_nil hopOrder
      (sendWaitedState e pTxBuff nTxBuffLen w).link hopOrder_ne_nil
    rw [hopOrder_length] at f1
    rw [nRF905SendFrame_eq, hlock, hd, hr]
    refine ⟨rfl, ?_, mode_setNRF905Mode _ _ hmode⟩
    have h1 : ({ emit .osMutexRelease (setNRF905Mode w.tNRF905Status.tNRF905CurrentMode w1).2 with
        held := false } : World).link = _ := link_release _
    rw [link_setNRF905Mode, hl] at h1
    refine (congrArg Link.hop h1).trans (f1.trans ?_)
    rw [congrArg Link.hop hs]
    rfl

/-- C2 from the power-on state with a silent peer. -/
theorem nRF905SendFrame_hop_exhausted_witness :
    ((roamNRF905 envSilent sampleCmd 5 staleFrame 6 world0).1 = -1 ∧
      (roamNRF905 envSilent sampleCmd 5 staleFrame 6 world0).2.2.nHopWait = 72 ∧
      (roamNRF905 envSilent sampleCmd 5 staleFrame 6 world0).2.2.tNRF905Status.unNRF905HoppingCNT
        = 72 ∧
      (roamNRF905 envSilent sampleCmd 5 staleFrame 6 world0).2.2.tNRF905Status.tNRF905CurrentMode
        = NRF905_MODE_PWR_DOWN) ∧
    ((nRF905SendFrame envSilent sampleCmd 5 staleFrame 6 world0).1 = -1 ∧
      (nRF905SendFrame envSilent sampleCmd 5 staleFrame 6 world0).2.2.tNRF905Status.unNRF905HoppingCNT
        = 72 ∧
      (nRF905SendFrame envSilent sampleCmd 5 staleFrame 6 world0).2.2.tNRF905Status.tNRF905CurrentMode
        = NRF905_MODE_PWR_DOWN) :=
  nRF905SendFrame_hop_exhausted envSilent sampleCmd 5 staleFrame 6 world0 world0 (by decide)
    (by decide) (by decide) (by decide) (by decide) (by decide)

/-- C3: with mutex ownership as explicit state, a caller that does not own the
mutex on entry does not own it when `nRF905SendFrame` returns, on every path.
When the acquisition succeeded, exactly one `osMutexRelease` was logged by the
call; when it timed out, the call returns -1, leaves the caller's buffer alone,
and the state differs from the entry state only by the logged `osMutexWait` and
its cursor: no link state changed, no GPIO write, no SPI transfer. -/
theorem nRF905SendFrame_lock_balanced (e : Env) (pTxBuff : List Nat) (nTxBuffLen : Nat)
    (pRxBuff : List Nat) (nRxBuffLen : Nat) (w : World) (hfree : w.held = false) :
    (nRF905SendFrame e pTxBuff nTxBuffLen pRxBuff nRxBuffLen w).2.2.held = false ∧
    (if e.mutexOK w.nMutex = true then
      (nRF905SendFrame e pTxBuff nTxBuffLen pRxBuff nRxBuffLen w).2.2.releases = w.releases + 1
    else
      (nRF905SendFrame e pTxBuff nTxBuffLen pRxBuff nRxBuffLen w).1 = -1 ∧
      (nRF905SendFrame e pTxBuff nTxBuffLen pRxBuff nRxBuffLen w).2.1 = pRxBuff ∧
      (nRF905SendFrame e pTxBuff nTxBuffLen pRxBuff nRxBuffLen w).2.2 =
        { w with calls := w.calls ++ [HwCall.osMutexWait 500], nMutex := w.nMutex + 1 }) := by
  obtain ⟨-, hrel, hheld⟩ := frame_nRF905SendFrame e pTxBuff nTxBuffLen pRxBuff nRxBuffLen w
  cases hlock : e.mutexOK w.nMutex with
  | true =>
    rw [hlock] at hrel
    exact ⟨hheld hlock, by simpa using hrel⟩
  | false =>
    rw [nRF905SendFrame_eq, hlock]
    exact ⟨hfree, by simp [emit]⟩

/-- C3 on the hop-exhaustion path from the power-on state. -/
theorem nRF905SendFrame_lock_balanced_witness :
    (nRF905SendFrame envSilent sampleCmd 5 staleFrame 6 world0).2.2.held = false ∧
    (nRF905SendFrame envSilent sampleCmd 5 staleFrame 6 world0).2.2.releases = 1 := by
  have h := nRF905SendFrame_lock_balanced envSilent sampleCmd 5 staleFrame 6 world0 rfl
  exact ⟨h.1, by simpa [envSilent, world0, World.releases] using h.2⟩

/-- C6: for every data length above 32, `writeTxPayload`, `writeConfig`,
`readRxPayload` and `readConfig` return -1 with the whole state unchanged (no
call logged, so no control-line write and no DMA start, no SPI cursor advance,
scratch buffers and link state untouched) and the caller's buffer unchanged. -/
theorem encoders_reject_long (e : Env) (unConfigAddr : Nat) (pBuff : List Nat) (nBuffLen : Nat)
    (w : World) (hlen : nBuffLen > 32) :
    writeTxPayload e pBuff nBuffLen w = (-1, w) ∧
    writeConfig e unConfigAddr pBuff nBuffLen w = (-1, w) ∧
    readRxPayload e pBuff nBuffLen w = (-1, pBuff, w) ∧
    readConfig e unConfigAddr pBuff nBuffLen w = (-1, pBuff, w) := by
  have h : nBuffLen > NRF905_SPI_TX_RX_MAX_LEN - 1 := hlen
  refine ⟨?_, ?_, ?_, ?_⟩
  · simp only [writeTxPayload, nRF905SPIWrite, if_pos h]
  · simp only [writeConfig, nRF905SPIWrite, if_pos h]
  · simp only [readRxPayload, nRF905SPIRead, if_pos h]
  · simp only [readConfig, nRF905SPIRead, if_pos h]

/-- C6 at length 33 from the power-on state. -/
theorem encoders_reject_long_witness :
    writeTxPayload envSilent (List.replicate 33 7) 33 world0 = (-1, world0) ∧
    writeConfig envSilent 0 (List.replicate 33 7) 33 world0 = (-1, world0) ∧
    readRxPayload envSilent (List.replicate 33 7) 33 world0 = (-1, List.replicate 33 7, world0) ∧
    readConfig envSilent 0 (List.replicate 33 7) 33 world0 = (-1, List.replicate 33 7, world0) :=
  encoders_reject_long envSilent 0 (List.replicate 33 7) 33 world0 (by decide)

theorem loadI16_eq_bmod (mem : List Nat) (off : Nat) :
    loadI16 mem off = Int.bmod ((mem.getD off 0 + 256 * mem.getD (off + 1) 0 : Nat) : Int) 65536 := by
  unfold loadI16 Int.bmod
  simp only []
  have h : (((mem.getD off 0 + 256 * mem.getD (off + 1) 0 : Nat) : Int) % ((65536 : Nat) : Int)) =
      (((mem.getD off 0 + 256 * mem.getD (off + 1) 0) % 65536 : Nat) : Int) := by
    omega
  rw [h]
  split_ifs <;> first | rfl | omega

theorem queryCarStatus_eq (e : Env) (unReadFrame : List Nat) (w : World) :
    queryCarStatus e unReadFrame w =
      if (pollExchange e unReadFrame w).1 = 0 then
        { { emit .HAL_GetTick (pollExchange e unReadFrame w).2.2 with
              nTick := (pollExchange e unReadFrame w).2.2.nTick + 1,
              unSysTickTest :=
                (e.tick (pollExchange e unReadFrame w).2.2.nTick % 2 ^ 32 + 2 ^ 32
                  - e.tick w.nTick % 2 ^ 32) % 2 ^ 32 } with
          tRemoteCarStatus := CarStatus_t.load (pollExchange e unReadFrame w).2.1 }
      else
        (pollExchange e unReadFrame w).2.2 :=
  rfl

/-- After `queryCarStatus` the published snapshot is the previous one when the
`nRF905SendFrame` call of that poll returned non-zero, and otherwise the three
`int16_t` fields read from bytes 0-1, 2-3, 4-5 of the receive frame as that call
left it, low byte first, as 16-bit two's-complement values. -/
theorem queryCarStatus_decodes_frame (e : Env) (unReadFrame : List Nat) (w : World) :
    getCarStatus (queryCarStatus e unReadFrame w) =
      if (pollExchange e unReadFrame w).1 = 0 then
        { nFrontSpeed := Int.bmod
            (((pollExchange e unReadFrame w).2.1.getD 0 0 +
              256 * (pollExchange e unReadFrame w).2.1.getD 1 0 : Nat) : Int) 65536
          nRearSpeed := Int.bmod
            (((pollExchange e unReadFrame w).2.1.getD 2 0 +
              256 * (pollExchange e unReadFrame w).2.1.getD 3 0 : Nat) : Int) 65536
          nSteer := Int.bmod
            (((pollExchange e unReadFrame w).2.1.getD 4 0 +
              256 * (pollExchange e unReadFrame w).2.1.getD 5 0 : Nat) : Int) 65536 }
      else
        getCarStatus w := by
  rw [queryCarStatus_eq]
  by_cases h : (pollExchange e unReadFrame w).1 = 0
  · rw [if_pos h, if_pos h]
    show CarStatus_t.load (pollExchange e unReadFrame w).2.1 = _
    simp only [CarStatus_t.load, loadI16_eq_bmod]
  · rw [if_neg h, if_neg h]
    exact (frame_nRF905SendFrame e _ 5 unReadFrame 6 _).1

/-- C8 as stated fails when the starting state already records `m`: from the
power-on state (mode `NRF905_MODE_PWR_DOWN`) two calls of
`setNRF905Mode(NRF905_MODE_PWR_DOWN)` both return 0 and log no write at all,
where the claim expects the three control-line writes once. -/
theorem setNRF905Mode_twice_counterexample :
    (setNRF905Mode NRF905_MODE_PWR_DOWN world0).1 = 0 ∧
    (setNRF905Mode NRF905_MODE_PWR_DOWN (setNRF905Mode NRF905_MODE_PWR_DOWN world0).2).1 = 0 ∧
    (setNRF905Mode NRF905_MODE_PWR_DOWN (setNRF905Mode NRF905_MODE_PWR_DOWN world0).2).2.calls
      = world0.calls ∧
    (setNRF905Mode NRF905_MODE_PWR_DOWN (setNRF905Mode NRF905_MODE_PWR_DOWN world0).2).2.calls
      ≠ world0.calls ++ modeWrites NRF905_MODE_PWR_DOWN := by
  decide

/-- C8 (amended): for every valid mode `m` and every starting state, calling
`setNRF905Mode(m)` twice returns 0 both times, the second call changes nothing
(it writes nothing), the recorded mode is `m`, and in total the three
control-line writes for `m` are made exactly once when the starting state
records a mode other than `m`, and not at all when it already records `m`. -/
theorem setNRF905Mode_twice (m : nRF905Mode_t) (w : World) (hm : m ≠ NRF905_MODE_MAX) :
    (setNRF905Mode m w).1 = 0 ∧
    (setNRF905Mode m (setNRF905Mode m w).2).1 = 0 ∧
    (setNRF905Mode m (setNRF905Mode m w).2).2 = (setNRF905Mode m w).2 ∧
    (setNRF905Mode m (setNRF905Mode m w).2).2.tNRF905Status.tNRF905CurrentMode = m ∧
    (setNRF905Mode m (setNRF905Mode m w).2).2.calls =
      w.calls ++ (if w.tNRF905Status.tNRF905CurrentMode = m then [] else modeWrites m) := by
  have h4 : ¬ m.toNat ≥ NRF905_MODE_MAX.toNat := by
    cases m <;> simp [nRF905Mode_t.toNat] at hm ⊢
  have hmode := mode_setNRF905Mode m w hm
  have h2 : setNRF905Mode m (setNRF905Mode m w).2 = (0, (setNRF905Mode m w).2) := by
    rw [setNRF905Mode.eq_def m (setNRF905Mode m w).2, if_neg h4, if_pos hmode.symm]
  rw [h2]
  refine ⟨?_, rfl, rfl, hmode, ?_⟩
  · unfold setNRF905Mode
    rw [if_neg h4]
    split <;> rfl
  · unfold setNRF905Mode
    rw [if_neg h4]
    by_cases hc : m = w.tNRF905Status.tNRF905CurrentMode
    · rw [if_pos hc, if_pos hc.symm]
      simp
    · rw [if_neg hc, if_neg (fun h => hc h.symm)]
      simp [emit, World.setMode, modeWrites]

/-- C8 (amended) from the power-on state to `NRF905_MODE_BURST_RX`. -/
theorem setNRF905Mode_twice_witness :
    (setNRF905Mode NRF905_MODE_BURST_RX world0).1 = 0 ∧
    (setNRF905Mode NRF905_MODE_BURST_RX (setNRF905Mode NRF905_MODE_BURST_RX world0).2).1 = 0 ∧
    (setNRF905Mode NRF905_MODE_BURST_RX (setNRF905Mode NRF905_MODE_BURST_RX world0).2).2
      = (setNRF905Mode NRF905_MODE_BURST_RX world0).2 ∧
    (setNRF905Mode NRF905_MODE_BURST_RX
      (setNRF905Mode NRF905_MODE_BURST_RX world0).2).2.tNRF905Status.tNRF905CurrentMode
      = NRF905_MODE_BURST_RX ∧
    (setNRF905Mode NRF905_MODE_BURST_RX (setNRF905Mode NRF905_MODE_BURST_RX world0).2).2.calls =
      [ HwCall.HAL_GPIO_WritePin Pin.NRF905_TX_EN GPIO_PinState.GPIO_PIN_RESET,
        HwCall.HAL_GPIO_WritePin Pin.NRF905_TRX_CE GPIO_PinState.GPIO_PIN_SET,
        HwCall.HAL_GPIO_WritePin Pin.NRF905_PWR_UP GPIO_PinState.GPIO_PIN_SET ] :=
  setNRF905Mode_twice NRF905_MODE_BURST_RX world0 (by decide)

/-- When the DMA transfer is started, `nRF905SPIDataRW` restores the mode it
found, whether the completion wait is signalled or times out. -/
theorem nRF905SPIDataRW_started_restores_mode (e : Env) (pTxBuff pRxBuff : List Nat)
    (unBuffLen : Nat) (w : World)
    (hmode : w.tNRF905Status.tNRF905CurrentMode ≠ NRF905_MODE_MAX)
    (hstart : e.spiStartOK w.nSpi = true) :
    (nRF905SPIDataRW e pTxBuff pRxBuff unBuffLen w).2.2.tNRF905Status.tNRF905CurrentMode
      = w.tNRF905Status.tNRF905CurrentMode := by
  have hn : (emit (.HAL_GPIO_WritePin .NRF905_CSN GPIO_PinState.GPIO_PIN_RESET)
      (setNRF905Mode NRF905_MODE_STD_BY w).2).nSpi = w.nSpi := by
    unfold setNRF905Mode
    split
    · rfl
    · split <;> rfl
  unfold nRF905SPIDataRW
  split
  · rfl
  · simp only [hn, hstart, if_true]
    split <;> exact mode_setNRF905Mode _ _ hmode

/-- C4 fails when the HAL refuses the DMA start: from the power-on state
(`NRF905_MODE_PWR_DOWN`) `nRF905SPIDataRW` returns -1 with the recorded mode
left at `NRF905_MODE_STD_BY`, and the log ends with chip-select asserted and
the refused DMA start: chip-select is not deasserted and the mode is not
restored. -/
theorem nRF905SPIDataRW_refused_start_keeps_standby :
    world0.tNRF905Status.tNRF905CurrentMode = NRF905_MODE_PWR_DOWN ∧
    (nRF905SPIDataRW envBusy [0x24, 0] [0, 0] 2 world0).1 = -1 ∧
    (nRF905SPIDataRW envBusy [0x24, 0] [0, 0] 2 world0).2.2.tNRF905Status.tNRF905CurrentMode
      = NRF905_MODE_STD_BY ∧
    (nRF905SPIDataRW envBusy [0x24, 0] [0, 0] 2 world0).2.2.calls =
      modeWrites NRF905_MODE_STD_BY ++
        [ HwCall.HAL_GPIO_WritePin Pin.NRF905_CSN GPIO_PinState.GPIO_PIN_RESET,
          HwCall.HAL_SPI_TransmitReceive_DMA [0x24, 0] ] := by
  decide

/-- C5 fails when the reply read fails: with data-ready signalled and the read
transaction timing out, `readRxPayload` returns -1 and copies nothing, yet
`nRF905SendFrame` returns 0 and counts a received frame while the caller's
buffer still holds its stale bytes, and `queryCarStatus` publishes those stale
bytes as the car status. -/
theorem nRF905SendFrame_reports_failed_read :
    (readRxPayload envReadTimeout staleFrame 6
      (sendWaitedState envReadTimeout sampleCmd 5 world0)).1 = -1 ∧
    (nRF905SendFrame envReadTimeout sampleCmd 5 staleFrame 6 world0).1 = 0 ∧
    (nRF905SendFrame envReadTimeout sampleCmd 5 staleFrame 6 world0).2.1 = staleFrame ∧
    (nRF905SendFrame envReadTimeout sampleCmd 5 staleFrame 6
      world0).2.2.tNRF905Status.unNRF905RecvFrameCNT = 1 ∧
    getCarStatus (queryCarStatus envReadTimeout staleFrame world0) = ⟨0x2211, 0x4433, 0x6655⟩ := by
  decide

theorem hopOrder_take_all : hopOrder.take 72 = hopOrder := by decide

theorem roamNRF905_exhausted_fields (e : Env) (pTxBuff : List Nat) (nTxBuffLen : Nat)
    (pRxBuff : List Nat) (nRxBuffLen : Nat) (w : World)
    (hto : ∀ i, i < 72 → e.hopWaitOK (w.nHopWait + i) = false) :
    (roamNRF905 e pTxBuff nTxBuffLen pRxBuff nRxBuffLen w).1 = -1 ∧
    (roamNRF905 e pTxBuff nTxBuffLen pRxBuff nRxBuffLen w).2.2.nHopWait = w.nHopWait + 72 ∧
    (roamNRF905 e pTxBuff nTxBuffLen pRxBuff nRxBuffLen w).2.2.tNRF905Status.unNRF905HoppingCNT =
      (w.tNRF905Status.unNRF905HoppingCNT + 72) % 2 ^ 32 ∧
    tunedTo (roamNRF905 e pTxBuff nTxBuffLen pRxBuff nRxBuffLen w).2.2.tNRF905Status 23 := by
  obtain ⟨w1, hr, hl, -⟩ := roamNRF905_timeout e pTxBuff nTxBuffLen pRxBuff nRxBuffLen w hto
  obtain ⟨f1, -, f3, -, -, -⟩ := foldl_attempt_ne_nil hopOrder w.link hopOrder_ne_nil
  rw [hopOrder_length] at f1 f3
  have hs := foldl_attempt_snoc (hopOrder.take 71) (71 % 24) w.link
  rw [← hopOrder_take_succ 71 (by decide), hopOrder_take_all,
    hop_word _ (Nat.mod_lt _ (by decide)),
    hop_txAddr _ (Nat.mod_lt _ (by decide)), hop_rxAddr _ (Nat.mod_lt _ (by decide))] at hs
  rw [hr]
  have hc : w1.tNRF905Status.unNRF905CHN_PWR = (unCAR_REMOTE_HOPPING_TAB.getD 23 0 ||| 0x0C00) :=
    (congrArg Link.chnPwr hl).trans hs.1
  refine ⟨rfl, (congrArg Link.nHopWait hl).trans f3, (congrArg Link.hop hl).trans f1, hc, ?_, ?_⟩
  · show w1.tNRF905Status.unNRF905TxAddr = _
    rw [hc]
    exact (congrArg Link.txAddr hl).trans hs.2.1
  · show w1.tNRF905Status.unNRF905RxAddr = _
    rw [hc]
    exact (congrArg Link.rxAddr hl).trans hs.2.2

theorem roamNRF905_tuned_at_return (e : Env) (pTxBuff : List Nat) (nTxBuffLen : Nat)
    (pRxBuff : List Nat) (nRxBuffLen : Nat) (w : World) :
    ∃ n, 1 ≤ n ∧ n ≤ 72 ∧
      (roamNRF905 e pTxBuff nTxBuffLen pRxBuff nRxBuffLen w).2.2.nHopWait = w.nHopWait + n ∧
      (roamNRF905 e pTxBuff nTxBuffLen pRxBuff nRxBuffLen w).2.2.tNRF905Status.unNRF905HoppingCNT =
        (w.tNRF905Status.unNRF905HoppingCNT + n) % 2 ^ 32 ∧
      tunedTo (roamNRF905 e pTxBuff nTxBuffLen pRxBuff nRxBuffLen w).2.2.tNRF905Status
        ((n - 1) % 24) := by
  by_cases h : ∃ j, j < 72 ∧ e.hopWaitOK (w.nHopWait + j) = true
  · have hj := Nat.find_spec h
    have hmin : ∀ i, i < Nat.find h → e.hopWaitOK (w.nHopWait + i) = false := by
      intro i hi
      have hn := Nat.find_min h hi
      have hi72 : i < 72 := Nat.lt_trans hi hj.1
      cases hb : e.hopWaitOK (w.nHopWait + i) with
      | false => rfl
      | true => exact absurd ⟨hi72, hb⟩ hn
    obtain ⟨-, g2, g3, g4, g5, g6⟩ := roamNRF905_kth_fields e pTxBuff nTxBuffLen pRxBuff
      nRxBuffLen w (Nat.find h + 1) (by omega) (by omega)
      (by simpa using hmin) (by simpa using hj.2)
    refine ⟨Nat.find h + 1, by omega, by omega, g2, g3, g4, ?_, ?_⟩
    · rw [g4]; exact g5
    · rw [g4]; exact g6
  · have hto : ∀ i, i < 72 → e.hopWaitOK (w.nHopWait + i) = false := by
      intro i hi
      cases hb : e.hopWaitOK (w.nHopWait + i) with
      | false => rfl
      | true => exact absurd ⟨i, hi, hb⟩ h
    obtain ⟨-, g2, g3, g4⟩ :=
      roamNRF905_exhausted_fields e pTxBuff nTxBuffLen pRxBuff nRxBuffLen w hto
    exact ⟨72, by decide, by decide, g2, g3, g4⟩

theorem nRF905SendFrame_fields (e : Env) (pTxBuff : List Nat) (nTxBuffLen : Nat)
    (pRxBuff : List Nat) (nRxBuffLen : Nat) (w : World) :
    ((nRF905SendFrame e pTxBuff nTxBuffLen pRxBuff nRxBuffLen w).2.2.tNRF905Status.unNRF905CHN_PWR
        = w.tNRF905Status.unNRF905CHN_PWR ∧
      (nRF905SendFrame e pTxBuff nTxBuffLen pRxBuff nRxBuffLen w).2.2.tNRF905Status.unNRF905TxAddr
        = w.tNRF905Status.unNRF905TxAddr ∧
      (nRF905SendFrame e pTxBuff nTxBuffLen pRxBuff nRxBuffLen w).2.2.tNRF905Status.unNRF905RxAddr
        = w.tNRF905Status.unNRF905RxAddr) ∨
    ∃ idx, idx < 24 ∧
      tunedTo (nRF905SendFrame e pTxBuff nTxBuffLen pRxBuff nRxBuffLen w).2.2.tNRF905Status idx := by
  rw [nRF905SendFrame_eq]
  cases hlock : e.mutexOK w.nMutex with
  | false => exact Or.inl ⟨rfl, rfl, rfl⟩
  | true =>
    have hs := link_sendWaitedState e pTxBuff nTxBuffLen w
    simp only [Bool.true_eq_false, if_false]
    split
    · left
      have h : ({ emit .osMutexRelease
          (setNRF905Mode w.tNRF905Status.tNRF905CurrentMode
            (readRxPayload e pRxBuff nRxBuffLen
              (sendWaitedState e pTxBuff nTxBuffLen w)).2.2).2.incRecvFrameCNT with
          held := false } : World).link = _ := link_release _
      rw [link_incRecvFrameCNT, link_setNRF905Mode, link_readRxPayload, hs] at h
      exact ⟨congrArg Link.chnPwr h, congrArg Link.txAddr h, congrArg Link.rxAddr h⟩
    · right
      have h : ({ emit .osMutexRelease
          (setNRF905Mode w.tNRF905Status.tNRF905CurrentMode
            (roamNRF905 e pTxBuff nTxBuffLen pRxBuff nRxBuffLen
              (sendWaitedState e pTxBuff nTxBuffLen w)).2.2).2 with
          held := false } : World).link = _ := link_release _
      rw [link_setNRF905Mode] at h
      obtain ⟨n, -, -, -, -, t1, t2, t3⟩ := roamNRF905_tuned_at_return e pTxBuff nTxBuffLen
        pRxBuff nRxBuffLen (sendWaitedState e pTxBuff nTxBuffLen w)
      have c1 := congrArg Link.chnPwr h
      have c2 := congrArg Link.txAddr h
      have c3 := congrArg Link.rxAddr h
      refine ⟨(n - 1) % 24, Nat.mod_lt _ (by decide), c1.trans t1, ?_, ?_⟩
      · exact c2.trans (t2.trans (congrArg (fun x => (x ||| (x <<< 16)) &&& 0x5CA259AA) c1.symm))
      · exact c3.trans (t3.trans (congrArg (fun x => (x ||| (x <<< 16)) &&& 0xA33D59AA) c1.symm))

/-- C10: `roamNRF905` tries the channels in table order with wrap-around and
stops at the first that responds. (1) For every `k` with `1 ≤ k ≤ 72`, when the
`k`-th completion wait of the hop loop is the first one signalled, it returns 0
after exactly `k` attempts (`k` waits consumed, hop counter advanced by `k`
modulo `2^32`) and at return the channel/power word is table entry `(k-1) mod 24`
or-ed with `0x0C00` and the transmit and receive addresses are the two masks of
`(w | w << 16)` for that same word `w`. (2) When no wait is signalled it returns
-1 after 72 attempts with the three fields derived from the last table entry.
(3) On every return, whatever the waits and the SPI transfers do, the three
fields are the ones derived together from the table entry of the last of its
`n` attempts (`1 ≤ n ≤ 72`). (4) Around it, `nRF905SendFrame` returns with the
three fields either all unchanged or all derived together from one table
entry: they are never set independently of one another. -/
theorem roamNRF905_first_responder (e : Env) (pTxBuff : List Nat) (nTxBuffLen : Nat)
    (pRxBuff : List Nat) (nRxBuffLen : Nat) (w : World) :
    (∀ k, 1 ≤ k → k ≤ 72 →
      (∀ i, i < k - 1 → e.hopWaitOK (w.nHopWait + i) = false) →
      e.hopWaitOK (w.nHopWait + (k - 1)) = true →
      (roamNRF905 e pTxBuff nTxBuffLen pRxBuff nRxBuffLen w).1 = 0 ∧
      (roamNRF905 e pTxBuff nTxBuffLen pRxBuff nRxBuffLen w).2.2.nHopWait = w.nHopWait + k ∧
      (roamNRF905 e pTxBuff nTxBuffLen pRxBuff nRxBuffLen w).2.2.tNRF905Status.unNRF905HoppingCNT =
        (w.tNRF905Status.unNRF905HoppingCNT + k) % 2 ^ 32 ∧
      (roamNRF905 e pTxBuff nTxBuffLen pRxBuff nRxBuffLen w).2.2.tNRF905Status.unNRF905CHN_PWR =
        (unCAR_REMOTE_HOPPING_TAB.getD ((k - 1) % 24) 0 ||| 0x0C00) ∧
      (roamNRF905 e pTxBuff nTxBuffLen pRxBuff nRxBuffLen w).2.2.tNRF905Status.unNRF905TxAddr =
        ((unCAR_REMOTE_HOPPING_TAB.getD ((k - 1) % 24) 0 ||| 0x0C00) |||
          ((unCAR_REMOTE_HOPPING_TAB.getD ((k - 1) % 24) 0 ||| 0x0C00) <<< 16)) &&& 0x5CA259AA ∧
      (roamNRF905 e pTxBuff nTxBuffLen pRxBuff nRxBuffLen w).2.2.tNRF905Status.unNRF905RxAddr =
        ((unCAR_REMOTE_HOPPING_TAB.getD ((k - 1) % 24) 0 ||| 0x0C00) |||
          ((unCAR_REMOTE_HOPPING_TAB.getD ((k - 1) % 24) 0 ||| 0x0C00) <<< 16)) &&& 0xA33D59AA) ∧
    ((∀ i, i < 72 → e.hopWaitOK (w.nHopWait + i) = false) →
      (roamNRF905 e pTxBuff nTxBuffLen pRxBuff nRxBuffLen w).1 = -1 ∧
      (roamNRF905 e pTxBuff nTxBuffLen pRxBuff nRxBuffLen w).2.2.nHopWait = w.nHopWait + 72 ∧
      (roamNRF905 e pTxBuff nTxBuffLen pRxBuff nRxBuffLen w).2.2.tNRF905Status.unNRF905HoppingCNT =
        (w.tNRF905Status.unNRF905HoppingCNT + 72) % 2 ^ 32 ∧
      tunedTo (roamNRF905 e pTxBuff nTxBuffLen pRxBuff nRxBuffLen w).2.2.tNRF905Status 23) ∧
    (∃ n, 1 ≤ n ∧ n ≤ 72 ∧
      (roamNRF905 e pTxBuff nTxBuffLen pRxBuff nRxBuffLen w).2.2.nHopWait = w.nHopWait + n ∧
      (roamNRF905 e pTxBuff nTxBuffLen pRxBuff nRxBuffLen w).2.2.tNRF905Status.unNRF905HoppingCNT =
        (w.tNRF905Status.unNRF905HoppingCNT + n) % 2 ^ 32 ∧
      tunedTo (roamNRF905 e pTxBuff nTxBuffLen pRxBuff nRxBuffLen w).2.2.tNRF905Status
        ((n - 1) % 24)) ∧
    (((nRF905SendFrame e pTxBuff nTxBuffLen pRxBuff nRxBuffLen w).2.2.tNRF905Status.unNRF905CHN_PWR
          = w.tNRF905Status.unNRF905CHN_PWR ∧
        (nRF905SendFrame e pTxBuff nTxBuffLen pRxBuff nRxBuffLen w).2.2.tNRF905Status.unNRF905TxAddr
          = w.tNRF905Status.unNRF905TxAddr ∧
        (nRF905SendFrame e pTxBuff nTxBuffLen pRxBuff nRxBuffLen w).2.2.tNRF905Status.unNRF905RxAddr
          = w.tNRF905Status.unNRF905RxAddr) ∨
      ∃ idx, idx < 24 ∧
        tunedTo (nRF905SendFrame e pTxBuff nTxBuffLen pRxBuff nRxBuffLen w).2.2.tNRF905Status
          idx) :=
  ⟨fun k hk1 hk72 hto hsig =>
      roamNRF905_kth_fields e pTxBuff nTxBuffLen pRxBuff nRxBuffLen w k hk1 hk72 hto hsig,
    roamNRF905_exhausted_fields e pTxBuff nTxBuffLen pRxBuff nRxBuffLen w,
    roamNRF905_tuned_at_return e pTxBuff nTxBuffLen pRxBuff nRxBuffLen w,
    nRF905SendFrame_fields e pTxBuff nTxBuffLen pRxBuff nRxBuffLen w⟩

/-- C10 from the power-on state: the 53rd attempt answered (table entry 4,
`0x804A`, word `0x8C4A`), and a silent peer (72 attempts, table entry 23,
`0x803F`, word `0x8C3F`). -/
theorem roamNRF905_first_responder_witness :
    ((roamNRF905 envHop53 sampleCmd 5 staleFrame 6 world0).1 = 0 ∧
      (roamNRF905 envHop53 sampleCmd 5 staleFrame 6 world0).2.2.nHopWait = 53 ∧
      (roamNRF905 envHop53 sampleCmd 5 staleFrame 6 world0).2.2.tNRF905Status.unNRF905HoppingCNT
        = 53 ∧
      (roamNRF905 envHop53 sampleCmd 5 staleFrame 6 world0).2.2.tNRF905Status.unNRF905CHN_PWR
        = 0x8C4A ∧
      (roamNRF905 envHop53 sampleCmd 5 staleFrame 6 world0).2.2.tNRF905Status.unNRF905TxAddr
        = 0x0C02080A ∧
      (roamNRF905 envHop53 sampleCmd 5 staleFrame 6 world0).2.2.tNRF905Status.unNRF905RxAddr
        = 0x8008080A) ∧
    ((roamNRF905 envSilent sampleCmd 5 staleFrame 6 world0).1 = -1 ∧
      (roamNRF905 envSilent sampleCmd 5 staleFrame 6 world0).2.2.nHopWait = 72 ∧
      (roamNRF905 envSilent sampleCmd 5 staleFrame 6 world0).2.2.tNRF905Status.unNRF905HoppingCNT
        = 72 ∧
      tunedTo (roamNRF905 envSilent sampleCmd 5 staleFrame 6 world0).2.2.tNRF905Status 23) :=
  ⟨(roamNRF905_first_responder envHop53 sampleCmd 5 staleFrame 6 world0).1 53 (by decide)
      (by decide) (by decide) (by decide),
    (roamNRF905_first_responder envSilent sampleCmd 5 staleFrame 6 world0).2.1 (by decide)⟩

/-- C7 fails on its success half when the reply read fails (the defect behind
C5): with data-ready signalled and the read transaction timing out, the
`nRF905SendFrame` call of the poll returns 0 with `unReadFrame` still holding
its stale bytes, while the six reply bytes the transceiver clocked out sit in
the scratch buffer of `nRF905SPIRead`; `getCarStatus` then returns the stale
bytes decoded, not the fields of the reply. -/
theorem queryCarStatus_publishes_stale_frame :
    (pollExchange envReadTimeout staleFrame world0).1 = 0 ∧
    (pollExchange envReadTimeout staleFrame world0).2.1 = staleFrame ∧
    ((pollExchange envReadTimeout staleFrame world0).2.2.rdRxBuff.drop 1).take 6
      = [0xA1, 0xA2, 0xA3, 0xA4, 0xA5, 0xA6] ∧
    CarStatus_t.load [0xA1, 0xA2, 0xA3, 0xA4, 0xA5, 0xA6] = ⟨-23903, -23389, -22875⟩ ∧
    getCarStatus (queryCarStatus envReadTimeout staleFrame world0) = ⟨8721, 17459, 26197⟩ := by
  decide

end NRF905
